import Mathlib

/-!
Verification of the CAQH PDF field-extraction engine
(`src/extraction/field_extractor.py`, `src/extraction/field_specific_extractors.py`,
`src/models/extraction_result.py`).

The Python code is shallowly embedded: pure string/arithmetic logic is translated
directly; calls into the external `re` regex library, `datetime.strptime` date
parsing, and the PBS-name helper module are abstracted as an oracle structure
`RegexOps` whose fields stand for the specific regex patterns used at each call
site (documented per field).  Character positions are `Nat` (Python string
indices over code points), confidences are `ℚ` (the decimal constants of the
source are exact), and dates are proleptic-Gregorian ordinals (`Int`), matching
`datetime.date.toordinal`.
-/

/- Batteries marks the rational-number operations `@[irreducible]`, which
blocks `decide`-style evaluation of concrete extraction runs; restore the
default reducibility (the kernel ignores reducibility attributes, so proofs
are unaffected). -/
set_option allowUnsafeReducibility true in
attribute [semireducible] Rat.add Rat.sub Rat.mul Rat.div Rat.inv

/-- The single-quote character as a string (used to reproduce Python error
message literals such as `Label 'x' not found`). -/
def sglq : String := (Char.ofNat 39).toString

/-- Python slice `s[a:b]` for nonnegative bounds: `Nat` subtraction in `take`
reproduces Python clamping at both ends. -/
def pySlice (s : String) (a b : Nat) : String := ⟨(s.data.drop a).take (b - a)⟩

/-- Substring occurrence over character lists (structural, so that concrete
instances evaluate). -/
def listContains (hay needle : List Char) : Bool :=
  match hay with
  | [] => needle.isEmpty
  | _ :: t => needle.isPrefixOf hay || listContains t needle

/-- Python substring test `needle in hay`. -/
def strContains (hay needle : String) : Bool := listContains hay.data needle.data

/-- Python `str.strip()` (whitespace from both ends). -/
def pyStrip (s : String) : String :=
  ⟨((s.data.dropWhile Char.isWhitespace).reverse.dropWhile Char.isWhitespace).reverse⟩

/-- Python `sep.join(xs)`. -/
def pyJoin (sep : String) : List String → String
  | [] => ""
  | [x] => x
  | x :: xs => x ++ sep ++ pyJoin sep xs

/-- Python `s.startswith(prefix)`. -/
def pyStartsWith (s pre : String) : Bool := pre.data.isPrefixOf s.data

/-- The maximal whitespace-separated words of a character list
(Python `str.split()` with no argument). -/
def pyWordsAux : List Char → List Char → List (List Char)
  | acc, [] => if acc.isEmpty then [] else [acc.reverse]
  | acc, c :: cs =>
    if c.isWhitespace then
      if acc.isEmpty then pyWordsAux [] cs else acc.reverse :: pyWordsAux [] cs
    else pyWordsAux (c :: acc) cs

/-- Python `s.split()`: whitespace-run splitting, empties dropped. -/
def pyWords (s : String) : List String := (pyWordsAux [] s.data).map List.asString

/-- Fuel-driven replace-all helper (the fuel is the subject's length, enough
for any non-empty pattern; left-to-right, non-overlapping, as Python). -/
def replaceListAux (pat sub : List Char) : Nat → List Char → List Char
  | _, [] => []
  | 0, l => l
  | fuel + 1, c :: cs =>
    if pat ≠ [] ∧ pat.isPrefixOf (c :: cs) then
      sub ++ replaceListAux pat sub fuel ((c :: cs).drop pat.length)
    else c :: replaceListAux pat sub fuel cs

/-- Python `s.replace(pat, sub)` (for non-empty `pat`, the only uses). -/
def pyReplace (s pat sub : String) : String :=
  ⟨replaceListAux pat.data sub.data s.data.length s.data⟩

/-- Python `str.lower()` (ASCII, sufficient for the document texts involved). -/
def pyLower (s : String) : String := ⟨s.data.map Char.toLower⟩

/-- Python `str.upper()`. -/
def pyUpper (s : String) : String := ⟨s.data.map Char.toUpper⟩

/-- Helper for `pyTitle`: the boolean records whether the previous character
was alphabetic. -/
def pyTitleAux : Bool → List Char → List Char
  | _, [] => []
  | prev, c :: cs =>
    let c2 := if c.isAlpha then (if prev then c.toLower else c.toUpper) else c
    c2 :: pyTitleAux c.isAlpha cs

/-- Python `str.title()` (ASCII). -/
def pyTitle (s : String) : String := ⟨pyTitleAux false s.data⟩

/-- Python truthiness of an optional string: `None` and `""` are falsy. -/
def pyTruthyOpt : Option String → Bool
  | none => false
  | some s => !(s = "")

/-- Drop trailing `':'` characters, Python `str.rstrip(':')`. -/
def dropTrailingColons (s : String) : String :=
  ⟨(s.data.reverse.dropWhile (· = ':')).reverse⟩

/-- Python `line.strip().rstrip(':').strip()` as used in the line-based
fallback of `_extract_using_label`. -/
def pyStripLine (line : String) : String := pyStrip (dropTrailingColons (pyStrip line))

/-- Python `' '.join(value.split())`: collapse all whitespace runs to single
spaces and strip the ends. -/
def pyCollapseWS (s : String) : String := pyJoin " " (pyWords s)

/-- Python `lines[-n:]`. -/
def lastN (n : Nat) (l : List String) : List String := l.drop (l.length - n)

/-- Splitting on one separator character, keeping empty pieces. -/
def splitCharAux (sep : Char) : List Char → List Char → List String
  | acc, [] => [⟨acc.reverse⟩]
  | acc, c :: cs =>
    if c = sep then (⟨acc.reverse⟩ : String) :: splitCharAux sep [] cs
    else splitCharAux sep (c :: acc) cs

/-- Python `text.split('\n')` keeping empty pieces. -/
def splitLines (s : String) : List String := splitCharAux (Char.ofNat 10) [] s.data

/-- Length of the first whitespace-separated word, Python `len(label.split()[0])`
(`0` for an all-whitespace label, where Python would raise `IndexError`;
configured labels are never empty). -/
def firstWordLen (label : String) : Nat := ((pyWords label).headD "").length

/-! ### Stable sorting by a two-component key

Python's `list.sort(key=...)` is a stable ascending sort.  Every sort in the
extractor uses a key that fits in a lexicographic pair of rationals. -/

/-- Strict lexicographic order on key pairs (Python tuple `<`). -/
def lexLt (p q : ℚ × ℚ) : Bool := decide (p.1 < q.1 ∨ (p.1 = q.1 ∧ p.2 < q.2))

/-- Reflexive lexicographic order on key pairs. -/
def lexLe (p q : ℚ × ℚ) : Prop := p.1 < q.1 ∨ (p.1 = q.1 ∧ p.2 ≤ q.2)

/-- Insert `x` after all elements whose key is `≤` its own (stability). -/
def pyInsert {α : Type} (key : α → ℚ × ℚ) (x : α) : List α → List α
  | [] => [x]
  | y :: ys => if lexLt (key x) (key y) then x :: y :: ys else y :: pyInsert key x ys

/-- Stable ascending sort by key, Python `l.sort(key=...)`. -/
def pySortKey {α : Type} (key : α → ℚ × ℚ) (l : List α) : List α :=
  l.foldl (fun acc x => pyInsert key x acc) []

theorem lexLt_eq_true_iff {p q : ℚ × ℚ} :
    lexLt p q = true ↔ (p.1 < q.1 ∨ (p.1 = q.1 ∧ p.2 < q.2)) := by
  simp [lexLt]

theorem not_lexLt_iff {p q : ℚ × ℚ} : ¬ lexLt p q = true ↔ lexLe q p := by
  rw [lexLt_eq_true_iff]
  constructor
  · intro h
    rcases lt_trichotomy p.1 q.1 with h1 | h1 | h1
    · exact absurd (Or.inl h1) h
    · exact Or.inr ⟨h1.symm, by
        by_contra hle
        exact h (Or.inr ⟨h1, lt_of_not_le hle⟩)⟩
    · exact Or.inl h1
  · intro h hc
    rcases h with h | ⟨heq, hle⟩
    · rcases hc with h1 | ⟨h1, _⟩
      · exact absurd h1 (not_lt.mpr h.le)
      · exact absurd h1.symm (ne_of_lt h)
    · rcases hc with h1 | ⟨_, h2⟩
      · exact absurd h1 (not_lt.mpr heq.le)
      · exact absurd h2 (not_lt.mpr hle)

theorem lexLe_trans {p q r : ℚ × ℚ} (h1 : lexLe p q) (h2 : lexLe q r) : lexLe p r := by
  rcases h1 with h1 | ⟨e1, l1⟩ <;> rcases h2 with h2 | ⟨e2, l2⟩
  · exact Or.inl (h1.trans h2)
  · exact Or.inl (e2 ▸ h1)
  · exact Or.inl (e1 ▸ h2)
  · exact Or.inr ⟨e1.trans e2, l1.trans l2⟩

theorem mem_pyInsert {α : Type} {key : α → ℚ × ℚ} {x a : α} {l : List α} :
    a ∈ pyInsert key x l ↔ a = x ∨ a ∈ l := by
  induction l with
  | nil => simp [pyInsert]
  | cons y ys ih =>
    cases hlt : lexLt (key x) (key y) with
    | true => simp [pyInsert, hlt]
    | false =>
      simp only [pyInsert, hlt, Bool.false_eq_true, if_false, List.mem_cons, ih]
      tauto

theorem pairwise_pyInsert {α : Type} {key : α → ℚ × ℚ} {x : α} {l : List α}
    (hl : l.Pairwise (fun a b => lexLe (key a) (key b))) :
    (pyInsert key x l).Pairwise (fun a b => lexLe (key a) (key b)) := by
  induction l with
  | nil => simp [pyInsert]
  | cons y ys ih =>
    rcases List.pairwise_cons.mp hl with ⟨hy, hys⟩
    cases hlt : lexLt (key x) (key y) with
    | true =>
      have heq : pyInsert key x (y :: ys) = x :: y :: ys := by simp [pyInsert, hlt]
      rw [heq]
      refine List.pairwise_cons.mpr ⟨?_, hl⟩
      intro b hb
      have hxy : lexLe (key x) (key y) := by
        rcases lexLt_eq_true_iff.mp hlt with h' | ⟨h1, h2⟩
        · exact Or.inl h'
        · exact Or.inr ⟨h1, h2.le⟩
      rcases List.mem_cons.mp hb with rfl | hb
      · exact hxy
      · exact lexLe_trans hxy (hy b hb)
    | false =>
      have heq : pyInsert key x (y :: ys) = y :: pyInsert key x ys := by
        simp [pyInsert, hlt]
      rw [heq]
      refine List.pairwise_cons.mpr ⟨?_, ih hys⟩
      intro b hb
      rcases mem_pyInsert.mp hb with rfl | hb
      · exact not_lexLt_iff.mp (by simp [hlt])
      · exact hy b hb

theorem mem_pySortKey {α : Type} {key : α → ℚ × ℚ} {a : α} {l : List α} :
    a ∈ pySortKey key l ↔ a ∈ l := by
  suffices h : ∀ acc, a ∈ l.foldl (fun acc x => pyInsert key x acc) acc ↔ a ∈ l ∨ a ∈ acc by
    simpa [pySortKey] using h []
  induction l with
  | nil => intro acc; simp
  | cons x xs ih =>
    intro acc
    simp only [List.foldl_cons, ih, mem_pyInsert, List.mem_cons]
    tauto

theorem pairwise_pySortKey {α : Type} (key : α → ℚ × ℚ) (l : List α) :
    (pySortKey key l).Pairwise (fun a b => lexLe (key a) (key b)) := by
  suffices h : ∀ acc, acc.Pairwise (fun a b => lexLe (key a) (key b)) →
      (l.foldl (fun acc x => pyInsert key x acc) acc).Pairwise
        (fun a b => lexLe (key a) (key b)) by
    exact h [] (by simp)
  induction l with
  | nil => intro acc hacc; simpa using hacc
  | cons x xs ih =>
    intro acc hacc
    exact ih _ (pairwise_pyInsert hacc)

/-- The head of a stable key-sort is key-minimal among all elements. -/
theorem head_pySortKey_min {α : Type} {key : α → ℚ × ℚ} {l : List α} {b : α}
    {rest : List α} (hsort : pySortKey key l = b :: rest) :
    b ∈ l ∧ ∀ a ∈ l, lexLe (key b) (key a) := by
  have hb : b ∈ l := mem_pySortKey.mp (by rw [hsort]; exact List.mem_cons_self b rest)
  refine ⟨hb, fun a ha => ?_⟩
  have ha' : a ∈ pySortKey key l := mem_pySortKey.mpr ha
  rw [hsort] at ha'
  rcases List.mem_cons.mp ha' with rfl | ha'
  · exact Or.inr ⟨rfl, le_refl _⟩
  · have hp := pairwise_pySortKey key l
    rw [hsort] at hp
    exact (List.pairwise_cons.mp hp).1 a ha'

/-! ### Data model (`src/models/extraction_result.py`)

Floats are `ℚ`; the `extracted_at : datetime` field (default
`datetime.now()`) and `extraction_time : float` (wall-clock elapsed seconds)
are modelled as explicit inputs recorded in the result. -/

/-- `FieldExtractionResult` (pydantic model, `extraction_result.py`). The
`position` field is always `None` in the code paths under study and omitted. -/
structure FieldExtractionResult where
  field_name : String
  extracted_value : Option String := none
  confidence : ℚ
  extraction_method : String
  raw_text_context : Option String := none
  errors : List String := []
  warnings : List String := []
  notes : Option String := none
  deriving Repr, DecidableEq

/-- `DocumentExtractionResult` (pydantic model, `extraction_result.py`). -/
structure DocumentExtractionResult where
  pdf_path : String
  pdf_filename : String
  total_fields_attempted : Nat
  fields_extracted : Nat
  field_results : List FieldExtractionResult := []
  extraction_time : ℚ
  extraction_method : String
  is_caqh_document : Bool := true
  errors : List String := []
  warnings : List String := []
  extracted_at : Int
  deriving Repr, DecidableEq

/-- `DocumentTypeResult` (`src/edge_cases/document_type_checker.py`). -/
structure DocumentTypeResult where
  is_valid_caqh : Bool
  document_type : String
  message : String
  deriving Repr, DecidableEq

/-- A regex match span: `m.start()` and `m.end()` (`m.group()` is the slice
of the searched text between them). -/
structure Span where
  s : Nat
  e : Nat
  deriving Repr, DecidableEq

/-- The `"extraction"` sub-dictionary of a field's entry in
`validation_rules.yaml`, with the defaults the code supplies at each
`.get(...)` call site.  `section_name` is the `"section"` key,
`warn_short_name` the `warnings.short_name` key. -/
structure ExtractionConfig where
  labels : List String := []
  pattern : String := ""
  max_distance : Nat := 50
  section_name : Option String := none
  pattern_required : Bool := false
  date_formats : Option (List String) := none
  warn_short_name : Option String := none
  deriving Repr, DecidableEq

/-- A field's entry in the loaded configuration; `extraction = none` models a
missing or empty (falsy) `"extraction"` sub-dictionary. -/
structure FieldCfg where
  extraction : Option ExtractionConfig := none
  deriving Repr, DecidableEq

/-- An extraction candidate tuple `(value, confidence, distance, direction)`;
`direc` is one of the Python direction strings `"after"`, `"before"`,
`"bidirectional"`. -/
structure Candidate where
  value : String
  conf : ℚ
  dist : Nat
  direc : String
  deriving Repr, DecidableEq

/-- The dictionary returned by `extract_insurance_fields` /
`_extract_single_policy` (11 fixed keys, all optional strings). -/
structure PolicyFields where
  insurance_policy_number : Option String := none
  insurance_covered_location : Option String := none
  insurance_current_effective_date : Option String := none
  insurance_current_expiration_date : Option String := none
  insurance_carrier_name : Option String := none
  insurance_address_street_1 : Option String := none
  insurance_address_street_2 : Option String := none
  insurance_address_city : Option String := none
  insurance_address_state : Option String := none
  insurance_address_country : Option String := none
  insurance_address_zip : Option String := none
  deriving Repr, DecidableEq

/-- Python `insurance_data.get(field_name)`. -/
def policyGet (p : PolicyFields) (field_name : String) : Option String :=
  if field_name = "insurance_policy_number" then p.insurance_policy_number
  else if field_name = "insurance_covered_location" then p.insurance_covered_location
  else if field_name = "insurance_current_effective_date" then p.insurance_current_effective_date
  else if field_name = "insurance_current_expiration_date" then p.insurance_current_expiration_date
  else if field_name = "insurance_carrier_name" then p.insurance_carrier_name
  else if field_name = "insurance_address_street_1" then p.insurance_address_street_1
  else if field_name = "insurance_address_street_2" then p.insurance_address_street_2
  else if field_name = "insurance_address_city" then p.insurance_address_city
  else if field_name = "insurance_address_state" then p.insurance_address_state
  else if field_name = "insurance_address_country" then p.insurance_address_country
  else if field_name = "insurance_address_zip" then p.insurance_address_zip
  else none

/-! ### Regex / external-library oracle

Each field abstracts one concrete call into the external `re` library,
`datetime.strptime`, or the PBS-name helper module, at the call sites of
`field_extractor.py` / `field_specific_extractors.py`.  Pattern arguments are
the pattern strings the code builds; a returned `Span` is the match's
`(start, end)` in the searched string. -/
structure RegexOps where
  /-- `re.escape(label)`. -/
  reEscape : String → String
  /-- `re.search(pat, text, re.IGNORECASE)` (label and section searches). -/
  searchI : String → String → Option Span
  /-- `re.finditer(pat, text, re.IGNORECASE)` (all label matches for
  `practice_location_name`). -/
  finditerI : String → String → List Span
  /-- `re.search(pattern, region)` (value pattern, no flags). -/
  search : String → String → Option Span
  /-- `re.finditer(pattern, region)` (value pattern, no flags). -/
  finditer : String → String → List Span
  /-- `re.search(r"\n\s*(?:SECTION\s+\d+|[A-Z][A-Z\s]\x7b10,\x7d)\s*\n", rest)`:
  the next-major-section search in `extract_field`. -/
  searchNextSection : String → Option Span
  /-- `any(re.search(p, line, re.IGNORECASE) for p in stop_patterns)` over the
  11 stop patterns of the practice-name multiline fallback. -/
  isStopLine : String → Bool
  /-- `re.match(r"^(Practice|Name|Location)\s*:?\s*$", line, re.IGNORECASE)`. -/
  isBeforeLabelOnlyLine : String → Bool
  /-- `re.match(r"^(Name\s*:?|Practice\s*:?)$", line, re.IGNORECASE)`. -/
  isAfterLabelOnlyLine : String → Bool
  /-- The two `re.sub` dash-spacing normalizations applied to the joined
  multiline practice name. -/
  normalizeDashes : String → String
  /-- `any(re.search(p, context, re.IGNORECASE) for p in npi_indicators)` over
  the 6 NPI indicator patterns of the medicaid_id filter. -/
  hasNpiIndicator : String → Bool
  /-- `datetime.strptime(value, fmt).date().toordinal()`:
  `none` models the `ValueError` branch. -/
  parseDate : String → String → Option Int
  /-- `extract_pbs_practice_name_complete(search_text, pattern_required)`
  from `pbs_name_extractor.py` (returns `(name, confidence)`). -/
  pbsExtract : String → Bool → Option String × ℚ
  /-- `normalize_pbs_name(value)` from `pbs_name_extractor.py`. -/
  normalizePbsName : String → Option String
  /-- `clean_practice_location_name(value)` from `pbs_name_extractor.py`. -/
  cleanPracticeLocationName : String → String
  /-- `re.search(r"INSURANCE\s+INFORMATION", text, re.IGNORECASE)`. -/
  searchInsuranceSection : String → Option Span
  /-- `re.search(r"\n\s*[A-Z\s]\x7b15,\x7d\n", rest)` in
  `extract_insurance_fields`. -/
  searchNextMajorSection : String → Option Span
  /-- `re.finditer(r"Policy\s+Number\s*:?\s*([A-Z0-9\-]+)", section, re.IGNORECASE)`. -/
  finditerPolicy : String → List Span
  /-- `_extract_single_policy(policy_text)` (pure per-block field parsing,
  `field_specific_extractors.py` lines 405-530). -/
  extractSinglePolicy : String → PolicyFields

/-! ### `field_specific_extractors.extract_insurance_fields` (lines 263-402) -/

/-- First format in `date_formats` that parses `value`
(the `for fmt: try strptime / except continue` loop). -/
def tryParseDate (R : RegexOps) (value : String) : List String → Option Int
  | [] => none
  | fmt :: rest =>
    match R.parseDate value fmt with
    | some d => some d
    | none => tryParseDate R value rest

/-- `_parse_date` (`field_specific_extractors.py` lines 533-561). -/
def insuranceParseDate (R : RegexOps) : Option String → Option Int
  | none => none
  | some s =>
    if s = "" then none
    else tryParseDate R s ["%m/%d/%Y", "%m-%d-%Y", "%Y-%m-%d", "%d/%m/%Y"]

/-- The per-policy block texts: block `i` runs from `policy_matches[i].start()`
to `policy_matches[i+1].start()` (or to the end of the section for the last). -/
def policyBlocks (sectionText : String) : List Span → List String
  | [] => []
  | m :: rest =>
    let endPos := match rest.head? with
      | some m2 => m2.s
      | none => sectionText.data.length
    pySlice sectionText m.s endPos :: policyBlocks sectionText rest

/-- Sort key for `policies_with_dates.sort(key=..., reverse=True)`: the stable
descending sort by parsed expiration date is the stable ascending sort by the
negated ordinal. -/
def insuranceDateKey (p : PolicyFields × Option Int) : ℚ × ℚ :=
  (-((p.2.getD 0 : Int) : ℚ), 0)

/-- The policy list built by the loop at lines 346-365: a block contributes
only when its `insurance_current_expiration_date` is truthy, paired with its
`_parse_date` result. -/
def insurancePolicies (R : RegexOps) (blocks : List String) :
    List (PolicyFields × Option Int) :=
  blocks.filterMap fun bt =>
    let pd := R.extractSinglePolicy bt
    if pyTruthyOpt pd.insurance_current_expiration_date then
      some (pd, insuranceParseDate R pd.insurance_current_expiration_date)
    else none

/-- The insurance section text (lines 310-320): from the section header's end
to the next major section header, or to document end. -/
def insuranceSectionText (R : RegexOps) (text : String) (section_start : Nat) :
    String :=
  match R.searchNextMajorSection (pySlice text section_start text.data.length) with
  | some nm => pySlice text section_start (section_start + nm.s)
  | none => pySlice text section_start text.data.length

/-- `extract_insurance_fields(text)` (lines 263-402).  The all-`None`
dictionary returned on the three failure paths is `{}` (all fields default
`none`). -/
def extract_insurance_fields (R : RegexOps) (text : String) : PolicyFields :=
  match R.searchInsuranceSection text with
  | none => {}
  | some sm =>
    let insurance_section := insuranceSectionText R text sm.e
    let policy_matches := R.finditerPolicy insurance_section
    if policy_matches = [] then {}
    else
      let policies := insurancePolicies R (policyBlocks insurance_section policy_matches)
      if policies = [] then {}
      else
        let policies_with_dates := policies.filter (fun p => p.2.isSome)
        let policies_without_dates := policies.filter (fun p => !p.2.isSome)
        match (pySortKey insuranceDateKey policies_with_dates).head? with
        | some sel => sel.1
        | none =>
          match policies_without_dates.head? with
          | some sel => sel.1
          | none => ((policies.headD ({}, none)).1)

/-! ### `field_extractor._extract_using_label` (lines 227-653) -/

/-- Label pattern construction (lines 259-267): `re.escape`, flexible
whitespace, negative lookbehind for short first words, optional colon. -/
def buildLabelPattern (R : RegexOps) (label : String) : String :=
  let p := pyReplace (R.reEscape label) "\\ " "\\s*"
  let p := if firstWordLen label ≤ 6 then "(?<!\\w)" ++ p else p
  p ++ "\\s*:?\\s*"

/-- The skip test of the `practice_location_name` label pre-filter
(lines 281-294): context windows are `search_text[max(0, start-200):start]`
and `search_text[start:end+50]`. -/
def plnSkipMatch (search_text : String) (m : Span) : Bool :=
  let context_before := pySlice search_text (m.s - 200) m.s
  let context_after := pySlice search_text m.s (min search_text.data.length (m.e + 50))
  strContains context_before "Tax Information"
    || strContains (pyLower context_before) "tax information"
    || strContains context_after "W-9"
    || strContains (pyLower context_after) "w-9"
    || strContains (pyLower context_after) "appears on"

/-- Label-match selection (lines 276-302): for `practice_location_name` the
first match surviving `plnSkipMatch`; otherwise the first `re.search` match. -/
def findLabelMatch (R : RegexOps) (field_name label_pattern search_text : String) :
    Option Span :=
  if field_name = "practice_location_name" then
    ((R.finditerI label_pattern search_text).filter
      (fun m => !plnSkipMatch search_text m)).head?
  else R.searchI label_pattern search_text

/-- After-region base confidence (lines 337, 356):
`max(0, 0.90 - (distance / max_distance * 0.20))`. -/
def afterBaseConf (distance max_distance : Nat) : ℚ :=
  max 0 (9/10 - ((distance : ℚ) / (max_distance : ℚ)) * (2/10))

/-- Before-region base confidence (lines 345, 368):
`max(0, 0.85 - (distance / max_distance * 0.25))`. -/
def beforeBaseConf (distance max_distance : Nat) : ℚ :=
  max 0 (85/100 - ((distance : ℚ) / (max_distance : ℚ)) * (25/100))

/-- Pattern-based candidate construction (lines 329-369).  License dates take
every match in both regions; other fields take the first after-match and the
last (closest) before-match.  A before-match's distance is
`len(before_region) - match.end()`. -/
def patternCandidates (R : RegexOps) (field_name pattern : String)
    (max_distance : Nat) (after_region before_region : String) : List Candidate :=
  if pattern ≠ "" ∧ field_name = "professional_license_expiration_date" then
    ((R.finditer pattern after_region).map fun m =>
      ⟨pyStrip (pySlice after_region m.s m.e), afterBaseConf m.s max_distance, m.s, "after"⟩)
    ++ ((R.finditer pattern before_region).map fun m =>
      let d := before_region.data.length - m.e
      ⟨pyStrip (pySlice before_region m.s m.e), beforeBaseConf d max_distance, d, "before"⟩)
  else if pattern ≠ "" then
    (match R.search pattern after_region with
     | some m =>
       [⟨pyStrip (pySlice after_region m.s m.e), afterBaseConf m.s max_distance, m.s, "after"⟩]
     | none => [])
    ++ (match (R.finditer pattern before_region).getLast? with
     | some m =>
       let d := before_region.data.length - m.e
       [⟨pyStrip (pySlice before_region m.s m.e), beforeBaseConf d max_distance, d, "before"⟩]
     | none => [])
  else []

/-- First line (among those given) whose stripped text has length > 1, with
its enumeration index (lines 455-461 and 466-472). -/
def firstGoodLine : List String → Option (Nat × String)
  | [] => none
  | line :: rest =>
    let ls := pyStripLine line
    if ls ≠ "" ∧ ls.data.length > 1 then some (0, ls)
    else (firstGoodLine rest).map (fun p => (p.1 + 1, p.2))

/-- The after-label line collection of the practice-name multiline fallback
(lines 422-435): stop at the first stop-pattern line (tested on the raw
line), keep stripped non-empty non-label-only lines. -/
def collectAfterLines (R : RegexOps) : List String → List String
  | [] => []
  | line :: rest =>
    if R.isStopLine line then []
    else
      let ls := pyStripLine line
      if ls ≠ "" ∧ ¬ R.isAfterLabelOnlyLine ls then ls :: collectAfterLines R rest
      else collectAfterLines R rest

/-- Line-based fallback candidates (lines 386-472), entered only when no
pattern candidate exists. -/
def fallbackCandidates (R : RegexOps) (field_name : String)
    (after_region before_region : String) : List Candidate :=
  let after_lines := splitLines after_region
  let candidates : List Candidate :=
    if field_name = "practice_location_name" then
      let before_lines := splitLines before_region
      let before_collected := (lastN 3 before_lines).filter fun line =>
        let ls := pyStrip line
        ls ≠ "" ∧ ls.data.length > 1 ∧ ¬ R.isBeforeLabelOnlyLine ls
      let after_collected := collectAfterLines R (after_lines.take 8)
      let all_collected := before_collected ++ after_collected
      if all_collected ≠ [] then
        let v := R.normalizeDashes (pyJoin " " all_collected)
        [⟨v, if before_collected ≠ [] ∧ after_collected ≠ [] then 85/100 else 80/100,
          0, "bidirectional"⟩]
      else []
    else
      match firstGoodLine (after_lines.take 3) with
      | some p => [⟨p.2, max 0 (75/100 - (p.1 : ℚ) * (15/100)), p.1, "after"⟩]
      | none => []
  if candidates.isEmpty then
    let before_lines := splitLines before_region
    match firstGoodLine ((lastN 3 before_lines).reverse) with
    | some p => [⟨p.2, max 0 (7/10 - (p.1 : ℚ) * (15/100)), p.1, "before"⟩]
    | none => []
  else candidates

/-- Context window around a medicaid_id candidate (lines 490-499). -/
def medicaidContext (search_text : String) (label_start label_end : Nat)
    (c : Candidate) : String :=
  if c.direc = "after" then
    pySlice search_text (label_end - 50)
      (min search_text.data.length (label_end + c.dist + c.value.data.length + 50))
  else
    pySlice search_text (label_start - c.dist - c.value.data.length - 50)
      (min search_text.data.length (label_start + 50))

/-- The medicaid_id NPI filter (lines 486-530): `.error r` models the early
`return`, `.ok cs` the surviving candidate list. -/
def medicaidStep (R : RegexOps) (search_text field_name : String)
    (label_start label_end : Nat) (candidates : List Candidate) :
    Except FieldExtractionResult (List Candidate) :=
  if field_name = "medicaid_id" ∧ candidates ≠ [] then
    let filtered := candidates.filter fun c =>
      !R.hasNpiIndicator (medicaidContext search_text label_start label_end c)
    if filtered ≠ [] then .ok filtered
    else .error
      { field_name := field_name
        extracted_value := none
        confidence := 0
        extraction_method := "bidirectional_search"
        errors := ["Found numeric values but all were labeled as NPI (not Medicaid ID)"]
        notes := some ("Rejected " ++ toString candidates.length
          ++ " NPI-labeled number(s) to prevent false positive") }
  else .ok candidates

/-- Default date formats (line 537). -/
def defaultDateFormats : List String := ["%m/%d/%Y", "%Y-%m-%d", "%m-%d-%Y"]

/-- Future candidates with `+0.10` confidence boost (lines 540-555), paired
with their parsed date ordinal. -/
def futureLicenseCandidates (R : RegexOps) (fmts : List String) (today : Int)
    (cands : List Candidate) : List (Candidate × Int) :=
  cands.filterMap fun c =>
    match tryParseDate R c.value fmts with
    | some d => if d > today then some ({ c with conf := min 1 (c.conf + 1/10) }, d) else none
    | none => none

/-- Parseable candidates with lowered confidence `max(0.3, conf - 0.20)`
(lines 565-579); reached only when no parseable future date exists, so every
parsed date is in the past. -/
def pastLicenseCandidates (R : RegexOps) (fmts : List String)
    (cands : List Candidate) : List (Candidate × Int) :=
  cands.filterMap fun c =>
    match tryParseDate R c.value fmts with
    | some d => some ({ c with conf := max (3/10) (c.conf - 2/10) }, d)
    | none => none

/-- Sort key `(-parsed_date.toordinal(), -confidence)` (lines 559, 583). -/
def licenseDateKey (p : Candidate × Int) : ℚ × ℚ := (-((p.2 : Int) : ℚ), -p.1.conf)

/-- The license-expiration future-date selection (lines 532-608). -/
def licenseStep (R : RegexOps) (refDate : Int) (field_name : String)
    (cfg : ExtractionConfig) (candidates : List Candidate) :
    Except FieldExtractionResult (List Candidate) :=
  if field_name = "professional_license_expiration_date" ∧ candidates ≠ [] then
    let fmts := cfg.date_formats.getD defaultDateFormats
    let fut := futureLicenseCandidates R fmts refDate candidates
    if fut ≠ [] then
      .ok ((pySortKey licenseDateKey fut).map Prod.fst)
    else
      let past := pastLicenseCandidates R fmts candidates
      match (pySortKey licenseDateKey past).head? with
      | some best =>
        let days_ago := refDate - best.2
        .error
          { field_name := field_name
            extracted_value := some best.1.value
            confidence := best.1.conf
            extraction_method := "bidirectional_search"
            errors := []
            warnings := ["⚠️ LICENSE EXPIRED: This license expired " ++ toString days_ago
              ++ " days ago on " ++ best.1.value ++ ". Current license required."]
            notes := some ("Extracted expired license date. Found " ++ toString past.length
              ++ " past date(s), selected most recent.") }
      | none =>
        .error
          { field_name := field_name
            extracted_value := none
            confidence := 0
            extraction_method := "bidirectional_search"
            errors := ["Found date(s) but could not parse them"]
            notes := some "Date parsing failed for all candidates" }
  else .ok candidates

/-- `_check_extraction_warnings` (lines 703-726). -/
def checkExtractionWarnings (value : String) (cfg : ExtractionConfig) : List String :=
  (if value.data.length < 2 then ["Extracted value is very short - may be incomplete"] else [])
  ++ (match cfg.warn_short_name with
      | some w => if value.data.length < 3 then [w] else []
      | none => [])

/-- Sort key `(-confidence, distance)` of the final candidate sort (line 611). -/
def candKey (c : Candidate) : ℚ × ℚ := (-c.conf, (c.dist : ℚ))

/-- Final candidate selection (lines 610-653): sort, take the best, add the
`+0.05` bonus whenever `pattern` is truthy, post-process practice names,
attach warnings, context and notes.  The `[]` case is unreachable (callers
pass a non-empty list) and mirrors no Python branch. -/
def finalizeSelection (R : RegexOps) (field_name label pattern : String)
    (cfg : ExtractionConfig) (after_region before_region : String)
    (candidates : List Candidate) : FieldExtractionResult :=
  match pySortKey candKey candidates with
  | [] =>
    { field_name := field_name, extracted_value := none, confidence := 0
      extraction_method := "bidirectional_search" }
  | best :: _ =>
    let confidence := if pattern ≠ "" then min 1 (best.conf + 5/100) else best.conf
    let extracted_value :=
      if field_name = "practice_location_name" then
        let v :=
          match R.normalizePbsName best.value with
          | some n => if n ≠ "" then n else R.cleanPracticeLocationName best.value
          | none => R.cleanPracticeLocationName best.value
        pyCollapseWS v
      else best.value
    let warnings := checkExtractionWarnings extracted_value cfg
    let context_region :=
      if best.direc = "after" then pySlice after_region 0 100
      else pySlice before_region (before_region.data.length - 100) before_region.data.length
    { field_name := field_name
      extracted_value := some extracted_value
      confidence := confidence
      extraction_method := "bidirectional_search"
      raw_text_context := some context_region
      warnings := warnings
      notes := some ("Extracted using label: " ++ sglq ++ label ++ sglq ++ " (found "
        ++ best.direc ++ " label, distance: " ++ toString best.dist ++ ")") }

/-- Result for a label that was not found (lines 304-311). -/
def labelNotFoundResult (field_name label : String)
    (section_name : Option String) : FieldExtractionResult :=
  { field_name := field_name
    extracted_value := none
    confidence := 0
    extraction_method := "bidirectional_search"
    errors := ["Label " ++ sglq ++ label ++ sglq ++ " not found in document"
      ++ (match section_name with
          | some sn => " (searched in " ++ sn ++ " section)"
          | none => "")] }

/-- `_extract_using_label` (lines 227-653). -/
def extractUsingLabel (R : RegexOps) (refDate : Int)
    (text field_name label pattern : String) (max_distance : Nat)
    (extraction_config : ExtractionConfig) : FieldExtractionResult :=
  let label_pattern := buildLabelPattern R label
  let search_text := text
  let section_name := extraction_config.section_name
  match findLabelMatch R field_name label_pattern search_text with
  | none => labelNotFoundResult field_name label section_name
  | some lm =>
    let label_start := lm.s
    let label_end := lm.e
    let after_region := pySlice search_text label_end (label_end + max_distance)
    let before_region := pySlice search_text (label_start - max_distance) label_start
    let candidates := patternCandidates R field_name pattern max_distance
      after_region before_region
    if candidates.isEmpty ∧ extraction_config.pattern_required ∧ pattern ≠ "" then
      { field_name := field_name
        extracted_value := none
        confidence := 0
        extraction_method := "bidirectional_search"
        errors := ["Label " ++ sglq ++ label ++ sglq ++ " found but value doesn" ++ sglq
          ++ "t match required pattern: " ++ pattern]
        notes := some "Pattern required but not matched (pattern_required=true)" }
    else
      let candidates :=
        if candidates.isEmpty then fallbackCandidates R field_name after_region before_region
        else candidates
      if candidates.isEmpty then
        { field_name := field_name
          extracted_value := none
          confidence := 3/10
          extraction_method := "bidirectional_search"
          raw_text_context := some (if after_region ≠ "" then pySlice after_region 0 50
            else pySlice before_region (before_region.data.length - 50)
              before_region.data.length)
          errors := ["Label " ++ sglq ++ label ++ sglq
            ++ " found but no value extracted in either direction"]
          warnings := if pattern ≠ "" then ["Expected pattern: " ++ pattern] else [] }
      else
        match medicaidStep R search_text field_name label_start label_end candidates with
        | .error r => r
        | .ok candidates =>
          match licenseStep R refDate field_name extraction_config candidates with
          | .error r => r
          | .ok candidates =>
            finalizeSelection R field_name label pattern extraction_config
              after_region before_region candidates

/-! ### `field_extractor.extract_field` (lines 50-224) -/

/-- The three section header variants tried in order (lines 84-88). -/
def sectionPatterns (section_name : String) : List String :=
  [ pyReplace (pyUpper section_name) "_" "\\s+"
  , pyReplace (pyTitle section_name) "_" " "
  , pyReplace section_name "_" "\\s+" ]

/-- First matching section pattern (lines 90-113): each variant is searched
wrapped as `(?:SECTION\s+\d+\s*:?\s*)?<variant>`, case-insensitively. -/
def firstSectionMatch (R : RegexOps) (section_name text : String) : Option Span :=
  (sectionPatterns section_name).foldl
    (fun acc p =>
      match acc with
      | some m => some m
      | none => R.searchI ("(?:SECTION\\s+\\d+\\s*:?\\s*)?" ++ p) text)
    none

/-- Section-aware narrowing of the search text (lines 74-113): on a section
header match the text runs from the header's end to the next major section
header (or document end). -/
def sectionSearchText (R : RegexOps) (extraction_config : ExtractionConfig)
    (text : String) : String :=
  match extraction_config.section_name with
  | none => text
  | some sn =>
    match firstSectionMatch R sn text with
    | none => text
    | some sp =>
      let section_start := sp.e
      match R.searchNextSection (pySlice text section_start text.data.length) with
      | some nm => pySlice text section_start (section_start + nm.s)
      | none => pySlice text section_start text.data.length

/-- The label loop of `extract_field` (lines 207-214): first label whose
result has a truthy `extracted_value` wins; `none` means every label fell
through. -/
def tryLabels (f : String → FieldExtractionResult) :
    List String → Option FieldExtractionResult
  | [] => none
  | label :: rest =>
    let result := f label
    if pyTruthyOpt result.extracted_value then some result else tryLabels f rest

/-- `extract_field(text, field_name, field_config)` (lines 50-224).
The module-level `_insurance_cache` (keyed by an MD5 hash of `text`) is
modelled as a direct call to `extract_insurance_fields`: for a given text the
cache stores exactly that call's result.  The `except` path around the
insurance call (`insurance_extractor_failed`) is unreachable here because the
embedded `extract_insurance_fields` is total.  `refDate` is
`datetime.now().date()` as an ordinal. -/
def extract_field (R : RegexOps) (refDate : Int) (text field_name : String)
    (field_config : FieldCfg) : FieldExtractionResult :=
  let extraction_config := field_config.extraction.getD {}
  let search_text := sectionSearchText R extraction_config text
  if pyStartsWith field_name "insurance_" then
    let insurance_data := extract_insurance_fields R text
    let extracted_value := policyGet insurance_data field_name
    let confidence : ℚ := if pyTruthyOpt extracted_value then 9/10 else 0
    { field_name := field_name
      extracted_value := extracted_value
      confidence := confidence
      extraction_method := "insurance_extractor"
      notes := some (if pyTruthyOpt extracted_value then
        "Extracted from policy with furthest expiration date" else "No insurance data found") }
  else if field_name = "practice_location_name"
      ∧ pyTruthyOpt (R.pbsExtract search_text extraction_config.pattern_required).1
      ∧ (R.pbsExtract search_text extraction_config.pattern_required).2 ≥ 4/5 then
    let pbs := R.pbsExtract search_text extraction_config.pattern_required
    { field_name := field_name
      extracted_value := pbs.1
      confidence := pbs.2
      extraction_method := "pbs_extractor"
      notes := some ("PBS organization detected: " ++ pbs.1.getD ""
        ++ (match extraction_config.section_name with
            | some sn => " (in " ++ sn ++ " section)"
            | none => "")) }
  else if field_config.extraction = none then
    { field_name := field_name
      extracted_value := none
      confidence := 0
      extraction_method := "no_config"
      errors := ["No extraction configuration found for " ++ field_name] }
  else if extraction_config.labels = [] then
    { field_name := field_name
      extracted_value := none
      confidence := 0
      extraction_method := "no_labels"
      errors := ["No extraction labels defined for " ++ field_name] }
  else
    match tryLabels
        (fun label => extractUsingLabel R refDate search_text field_name label
          extraction_config.pattern extraction_config.max_distance extraction_config)
        extraction_config.labels with
    | some r => r
    | none =>
      { field_name := field_name
        extracted_value := none
        confidence := 0
        extraction_method := "label_proximity"
        errors := ["Could not find any of the labels: "
          ++ pyJoin ", " extraction_config.labels]
        notes := some ("Tried labels: " ++ pyJoin ", " extraction_config.labels) }

/-! ### `field_extractor.extract_all_fields` (lines 729-883) -/

/-- The default POC field list (lines 788-794, 838-844). -/
def defaultFieldNames : List String :=
  ["medicaid_id", "ssn", "individual_npi", "practice_location_name",
   "professional_license_expiration_date"]

/-- The environment of external effects the orchestrator consumes:
`validate_pdf_file` (a `(bool, message)` pair), `read_pdf_text` (text or the
exception's message), `DocumentTypeChecker().validate_document(path, text)`,
and `load_extraction_config` (the per-field table, or the exception's
message; a `none` entry models a missing or falsy field entry). -/
structure OrchestratorEnv where
  validate_result : Bool × String
  read_result : Except String String
  doc_check : String → String → DocumentTypeResult
  load_config : Except String (String → Option FieldCfg)

/-- The wrong-document field result (lines 797-805). -/
def wrongDocumentFieldResult (dt : DocumentTypeResult) (field_name : String) :
    FieldExtractionResult :=
  { field_name := field_name
    extracted_value := none
    confidence := 0
    extraction_method := "wrong_document"
    errors := [dt.message]
    notes := some ("Wrong document type: " ++ dt.document_type) }

/-- `extract_all_fields(pdf_path, field_names)` (lines 729-883).  `elapsed`
is the observed `time.time() - start_time` and `now_ts` the
`extracted_at = datetime.now()` default timestamp; both are explicit inputs
because they are wall-clock reads.  The OCR-method scan
`any("OCR" in text for page in text.split("--- Page"))` tests `"OCR" in text`
once per page element and `split` always yields at least one element, so it
equals `"OCR" in text`.  The `notes=...` keyword passed on the wrong-document
path is not a declared field of the pydantic `DocumentExtractionResult` model
and is silently dropped, so the model here has no document-level notes. -/
def extract_all_fields (env : OrchestratorEnv) (R : RegexOps) (refDate : Int)
    (pdf_path pdf_filename : String) (field_names : Option (List String))
    (elapsed : ℚ) (now_ts : Int) : DocumentExtractionResult :=
  if !env.validate_result.1 then
    { pdf_path := pdf_path, pdf_filename := pdf_filename
      total_fields_attempted := 0, fields_extracted := 0
      field_results := []
      extraction_time := elapsed, extraction_method := "validation_failed"
      is_caqh_document := false
      errors := [env.validate_result.2], extracted_at := now_ts }
  else
    match env.read_result with
    | .error e =>
      { pdf_path := pdf_path, pdf_filename := pdf_filename
        total_fields_attempted := 0, fields_extracted := 0
        field_results := []
        extraction_time := elapsed, extraction_method := "read_failed"
        errors := ["Failed to read PDF: " ++ e], extracted_at := now_ts }
    | .ok text =>
      let dt := env.doc_check pdf_path text
      if !dt.is_valid_caqh then
        let names := field_names.getD defaultFieldNames
        { pdf_path := pdf_path, pdf_filename := pdf_filename
          total_fields_attempted := names.length, fields_extracted := 0
          field_results := names.map (wrongDocumentFieldResult dt)
          extraction_time := elapsed, extraction_method := "wrong_document"
          is_caqh_document := false
          errors := [dt.message], extracted_at := now_ts }
      else
        match env.load_config with
        | .error e =>
          { pdf_path := pdf_path, pdf_filename := pdf_filename
            total_fields_attempted := 0, fields_extracted := 0
            field_results := []
            extraction_time := elapsed, extraction_method := "config_failed"
            errors := ["Failed to load extraction config: " ++ e], extracted_at := now_ts }
        | .ok config =>
          let names := field_names.getD defaultFieldNames
          let field_results := names.map fun n =>
            match config n with
            | none =>
              { field_name := n
                extracted_value := none
                confidence := 0
                extraction_method := "no_config"
                errors := ["No configuration found for field: " ++ n] }
            | some fc => extract_field R refDate text n fc
          let fields_extracted :=
            (field_results.filter (fun r => r.extracted_value.isSome)).length
          { pdf_path := pdf_path, pdf_filename := pdf_filename
            total_fields_attempted := names.length
            fields_extracted := fields_extracted
            field_results := field_results
            extraction_time := elapsed
            extraction_method := if strContains text "OCR" then "ocr" else "native_pdf"
            is_caqh_document := true, extracted_at := now_ts }

/-! ### Concrete environments and oracles used by witnesses and counterexamples -/

/-- An oracle in which every external search fails / returns nothing. -/
def noopOps : RegexOps where
  reEscape := id
  searchI := fun _ _ => none
  finditerI := fun _ _ => []
  search := fun _ _ => none
  finditer := fun _ _ => []
  searchNextSection := fun _ => none
  isStopLine := fun _ => false
  isBeforeLabelOnlyLine := fun _ => false
  isAfterLabelOnlyLine := fun _ => false
  normalizeDashes := id
  hasNpiIndicator := fun _ => false
  parseDate := fun _ _ => none
  pbsExtract := fun _ _ => (none, 0)
  normalizePbsName := fun _ => none
  cleanPracticeLocationName := id
  searchInsuranceSection := fun _ => none
  searchNextMajorSection := fun _ => none
  finditerPolicy := fun _ => []
  extractSinglePolicy := fun _ => {}

/-- A loaded configuration table with no field entries. -/
def noopTable : String → Option FieldCfg := fun _ => none

/-- Environment for a document that fails file validation. -/
def c1FailEnv : OrchestratorEnv where
  validate_result := (false, "File is empty (0 bytes)")
  read_result := .error "unreadable"
  doc_check := fun _ _ => ⟨true, "valid_caqh", "ok"⟩
  load_config := .error "no config"

/-- Environment for a document that fails the document-type gate. -/
def gateEnv : OrchestratorEnv where
  validate_result := (true, "")
  read_result := .ok "This is a resume, not a CAQH form"
  doc_check := fun _ _ =>
    ⟨false, "wrong_document", "This document does not appear to be a CAQH Data Summary"⟩
  load_config := .error "never loaded"

/-- Environment for a document that passes validation and the gate. -/
def okEnv : OrchestratorEnv where
  validate_result := (true, "")
  read_result := .ok "CAQH Data Summary"
  doc_check := fun _ _ => ⟨true, "valid_caqh", "ok"⟩
  load_config := .ok noopTable

/-! ### C2 — gate short-circuit -/

/-- Claim C2: whenever the document-type gate flag is false, every requested
field's result has `extraction_method = "wrong_document"`,
`extracted_value = none` and `confidence = 0.0`; and no label or pattern
search is attempted for any field — the output does not depend on the regex
oracles, the reference date, or the configuration table. -/
theorem gate_short_circuit (env : OrchestratorEnv) (R R' : RegexOps)
    (refDate refDate' : Int) (pdf_path pdf_filename : String)
    (field_names : Option (List String)) (elapsed : ℚ) (now_ts : Int)
    (cfg' : Except String (String → Option FieldCfg)) (text : String)
    (hv : env.validate_result.1 = true)
    (hr : env.read_result = .ok text)
    (hg : (env.doc_check pdf_path text).is_valid_caqh = false) :
    (∀ r ∈ (extract_all_fields env R refDate pdf_path pdf_filename field_names
        elapsed now_ts).field_results,
      r.extraction_method = "wrong_document" ∧ r.extracted_value = none
        ∧ r.confidence = 0)
    ∧ extract_all_fields env R refDate pdf_path pdf_filename field_names elapsed now_ts
      = extract_all_fields { env with load_config := cfg' } R' refDate' pdf_path
          pdf_filename field_names elapsed now_ts := by
  constructor
  · intro r hrmem
    simp only [extract_all_fields, hv, hr, hg, Bool.not_false, Bool.not_true,
      if_true, if_false, Bool.false_eq_true, Bool.true_eq_false] at hrmem
    rcases List.mem_map.mp hrmem with ⟨n, _, rfl⟩
    exact ⟨rfl, rfl, rfl⟩
  · simp only [extract_all_fields, hv, hr, hg, Bool.not_false, Bool.not_true,
      if_true, if_false, Bool.false_eq_true, Bool.true_eq_false]

/-- Witness for C2 at a concrete wrong-document environment. -/
theorem gate_short_circuit_witness :
    extract_all_fields gateEnv noopOps 0 "d.pdf" "d.pdf" none 0 0
      = extract_all_fields { gateEnv with load_config := Except.ok noopTable }
          noopOps 1 "d.pdf" "d.pdf" none 0 0 :=
  (gate_short_circuit gateEnv noopOps noopOps 0 1 "d.pdf" "d.pdf" none 0 0
    (Except.ok noopTable) "This is a resume, not a CAQH form" rfl rfl rfl).2

/-! ### C1 — totality of field results -/

/-- Counterexample to claim C1: when file validation fails, the result has an
empty `field_results` list although one field (`"ssn"`) was requested, so
`len(result.field_results) == len(field_names)` fails on that path. -/
theorem totality_counterexample :
    (extract_all_fields c1FailEnv noopOps 0 "bad.pdf" "bad.pdf" (some ["ssn"]) 0 0
      ).field_results.length ≠ (["ssn"] : List String).length := by decide

/-- Claim C1 (amended): the orchestrator returns exactly one field result per
requested field on the wrong-document path and on the successful path; on the
file-validation, read and configuration-load failure paths it returns an
empty `field_results` list (with `total_fields_attempted = 0`). -/
theorem totality_amended (env : OrchestratorEnv) (R : RegexOps) (refDate : Int)
    (pdf_path pdf_filename : String) (field_names : Option (List String))
    (elapsed : ℚ) (now_ts : Int) :
    (∀ text, env.validate_result.1 = true → env.read_result = .ok text →
      ((env.doc_check pdf_path text).is_valid_caqh = false
          ∨ (∃ c, env.load_config = .ok c)) →
      (extract_all_fields env R refDate pdf_path pdf_filename field_names elapsed
        now_ts).field_results.length = (field_names.getD defaultFieldNames).length)
    ∧ (env.validate_result.1 = false →
      (extract_all_fields env R refDate pdf_path pdf_filename field_names elapsed
        now_ts).field_results = [])
    ∧ (∀ e, env.validate_result.1 = true → env.read_result = .error e →
      (extract_all_fields env R refDate pdf_path pdf_filename field_names elapsed
        now_ts).field_results = [])
    ∧ (∀ text e, env.validate_result.1 = true → env.read_result = .ok text →
      (env.doc_check pdf_path text).is_valid_caqh = true →
      env.load_config = .error e →
      (extract_all_fields env R refDate pdf_path pdf_filename field_names elapsed
        now_ts).field_results = []) := by
  refine ⟨?_, ?_, ?_, ?_⟩
  · intro text hv hr hpath
    rcases hpath with hg | ⟨c, hc⟩
    · simp [extract_all_fields, hv, hr, hg]
    · by_cases hg : (env.doc_check pdf_path text).is_valid_caqh
      · simp [extract_all_fields, hv, hr, hg, hc]
      · simp only [Bool.not_eq_true] at hg
        simp [extract_all_fields, hv, hr, hg]
  · intro hv
    simp [extract_all_fields, hv]
  · intro e hv hr
    simp [extract_all_fields, hv, hr]
  · intro text e hv hr hg hc
    simp [extract_all_fields, hv, hr, hg, hc]

/-- Witness for C1 (amended) on a successful run requesting the default five
fields. -/
theorem totality_amended_witness :
    (extract_all_fields okEnv noopOps 0 "d.pdf" "d.pdf" none 0 0
      ).field_results.length = 5 := by
  have h := (totality_amended okEnv noopOps 0 "d.pdf" "d.pdf" none 0 0).1
    "CAQH Data Summary" rfl rfl (Or.inr ⟨noopTable, rfl⟩)
  simpa using h

/-! ### C8 — determinism / idempotence -/

/-- Zero out the two wall-clock fields of a document result
(`extraction_time` from `time.time()` and `extracted_at` from
`datetime.now()`). -/
def stripClockFields (r : DocumentExtractionResult) : DocumentExtractionResult :=
  { r with extraction_time := 0, extracted_at := 0 }

/-- Counterexample to claim C8: two runs on identical text, configuration and
reference date are not byte-identical — the `extraction_time` field records
the observed wall-clock elapsed time, which differs between the runs. -/
theorem idempotence_counterexample :
    extract_all_fields okEnv noopOps 0 "d.pdf" "d.pdf" (some ["ssn"]) 0 0
      ≠ extract_all_fields okEnv noopOps 0 "d.pdf" "d.pdf" (some ["ssn"]) 1 0 := by
  decide

/-- Claim C8 (amended): with the wall-clock fields `extraction_time` and
`extracted_at` removed, two runs on the same environment, oracles, reference
date and arguments agree on every remaining field — the rest of the result is
a deterministic function of its inputs with no cross-call memory (the
module-level insurance cache is keyed by a hash of the text and stores
exactly the value recomputed here). -/
theorem idempotence_amended (env : OrchestratorEnv) (R : RegexOps)
    (refDate : Int) (pdf_path pdf_filename : String)
    (field_names : Option (List String)) (e1 e2 : ℚ) (t1 t2 : Int) :
    stripClockFields
        (extract_all_fields env R refDate pdf_path pdf_filename field_names e1 t1)
      = stripClockFields
        (extract_all_fields env R refDate pdf_path pdf_filename field_names e2 t2) := by
  cases hv : env.validate_result.1 with
  | false => simp [extract_all_fields, hv, stripClockFields]
  | true =>
    cases hr : env.read_result with
    | error e => simp [extract_all_fields, hv, hr, stripClockFields]
    | ok text =>
      cases hg : (env.doc_check pdf_path text).is_valid_caqh with
      | false => simp [extract_all_fields, hv, hr, hg, stripClockFields]
      | true =>
        cases hc : env.load_config with
        | error e => simp [extract_all_fields, hv, hr, hg, hc, stripClockFields]
        | ok c => simp [extract_all_fields, hv, hr, hg, hc, stripClockFields]

/-! ### C3 — directional preference -/

/-- Helper: the after-region score strictly beats the before-region score at
every distance within the radius. -/
theorem beforeBaseConf_lt_afterBaseConf (d r : Nat) (hr : 0 < r) (hd : d ≤ r) :
    beforeBaseConf d r < afterBaseConf d r := by
  unfold afterBaseConf beforeBaseConf
  have hr' : (0 : ℚ) < (r : ℚ) := by exact_mod_cast hr
  have ht0 : (0 : ℚ) ≤ (d : ℚ) / (r : ℚ) :=
    div_nonneg (by positivity) hr'.le
  have ht1 : (d : ℚ) / (r : ℚ) ≤ 1 := by
    rw [div_le_one hr']
    exact_mod_cast hd
  rw [max_eq_right (by linarith), max_eq_right (by linarith)]
  linarith

/-- Claim C3: for a label with pattern matches at equal character distance
before and after it, the after candidate's score `0.90 - 0.20·d/r` strictly
exceeds the before candidate's `0.85 - 0.25·d/r` for every distance `d ≤ r`,
candidates are sorted by confidence descending then distance ascending, and
the after-label match is selected (head of the sorted candidate list). -/
theorem directional_preference (R : RegexOps) (field_name pattern : String)
    (hf : field_name ≠ "professional_license_expiration_date") (hp : pattern ≠ "")
    (max_distance : Nat) (hr : 0 < max_distance)
    (after_region before_region : String) (ma mb : Span)
    (hsa : R.search pattern after_region = some ma)
    (hsb : (R.finditer pattern before_region).getLast? = some mb)
    (heq : before_region.data.length - mb.e = ma.s)
    (hd : ma.s ≤ max_distance) (l : List Candidate) :
    beforeBaseConf ma.s max_distance < afterBaseConf ma.s max_distance
    ∧ (pySortKey candKey (patternCandidates R field_name pattern max_distance
        after_region before_region)).head?
      = some ⟨pyStrip (pySlice after_region ma.s ma.e), afterBaseConf ma.s max_distance,
          ma.s, "after"⟩
    ∧ (pySortKey candKey l).Pairwise (fun c d => lexLe (candKey c) (candKey d)) := by
  have hscore := beforeBaseConf_lt_afterBaseConf ma.s max_distance hr hd
  refine ⟨hscore, ?_, pairwise_pySortKey candKey l⟩
  have hcand : patternCandidates R field_name pattern max_distance
      after_region before_region
      = [⟨pyStrip (pySlice after_region ma.s ma.e), afterBaseConf ma.s max_distance,
          ma.s, "after"⟩,
         ⟨pyStrip (pySlice before_region mb.s mb.e),
          beforeBaseConf (before_region.data.length - mb.e) max_distance,
          before_region.data.length - mb.e, "before"⟩] := by
    unfold patternCandidates
    rw [if_neg (fun h => hf h.2), if_pos hp, hsa, hsb]
    rfl
  rw [hcand]
  have hlt : lexLt
      (candKey ⟨pyStrip (pySlice before_region mb.s mb.e),
        beforeBaseConf (before_region.data.length - mb.e) max_distance,
        before_region.data.length - mb.e, "before"⟩)
      (candKey ⟨pyStrip (pySlice after_region ma.s ma.e),
        afterBaseConf ma.s max_distance, ma.s, "after"⟩) = false := by
    simp only [lexLt, candKey, heq, decide_eq_false_iff_not]
    push_neg
    constructor
    · exact neg_le_neg hscore.le
    · intro hconf
      exact absurd (neg_injective hconf) (ne_of_lt hscore)
  simp only [pySortKey, List.foldl, pyInsert, hlt, Bool.false_eq_true, if_false,
    List.head?]

/-- Witness for C3 at distance 1, radius 50, concrete regions and spans. -/
theorem directional_preference_witness :
    (pySortKey candKey (patternCandidates
        { noopOps with
          search := fun _ reg => if reg = "ab" then some ⟨1, 2⟩ else none
          finditer := fun _ reg => if reg = "cd" then [⟨0, 1⟩] else [] }
        "ssn" "p" 50 "ab" "cd")).head?
      = some ⟨pyStrip (pySlice "ab" 1 2), afterBaseConf 1 50, 1, "after"⟩ :=
  (directional_preference
    { noopOps with
      search := fun _ reg => if reg = "ab" then some ⟨1, 2⟩ else none
      finditer := fun _ reg => if reg = "cd" then [⟨0, 1⟩] else [] }
    "ssn" "p" (by decide) (by decide) 50 (by decide) "ab" "cd" ⟨1, 2⟩ ⟨0, 1⟩
    (by decide) (by decide) (by decide) (by decide) []).2.1

/-! ### C9 / C4 — concrete SSN scenario: label found, value pattern never
matches, line-based fallback yields "hello world" -/

/-- Oracle for the text `"SSN: hello world"`: the label pattern built for
`"SSN"` matches at span `(0,5)` (over `"SSN: "`); the SSN value pattern
matches nowhere. -/
def ssnOps : RegexOps :=
  { noopOps with
    searchI := fun pat text =>
      if pat = "(?<!\\w)SSN\\s*:?\\s*" ∧ text = "SSN: hello world" then some ⟨0, 5⟩
      else none }

/-- The SSN value pattern `\d{3}-\d{2}-\d{4}`. -/
def ssnPattern : String := "\\d\x7b3\x7d-\\d\x7b2\x7d-\\d\x7b4\x7d"

/-- SSN field configuration (pattern not mandatory). -/
def ssnConfig : ExtractionConfig := { labels := ["SSN"], pattern := ssnPattern }

/-- SSN field configuration with `pattern_required: true`. -/
def ssnReqConfig : ExtractionConfig :=
  { labels := ["SSN"], pattern := ssnPattern, pattern_required := true }

/-- Claim C9 (code bug): on `"SSN: hello world"` no value-pattern match
exists in either window (3rd conjunct) and the selected candidate is the
line-based fallback at base confidence 0.75 (4th conjunct), yet the returned
confidence is 0.80 — the `+0.05` bonus was added because a pattern is merely
*configured* (`if pattern:`), although the code's own comment says "Boost
confidence if pattern matched". -/
theorem pattern_bonus_code_bug :
    (extractUsingLabel ssnOps 0 "SSN: hello world" "ssn" "SSN" ssnPattern 50
      ssnConfig).confidence = 4/5
    ∧ (extractUsingLabel ssnOps 0 "SSN: hello world" "ssn" "SSN" ssnPattern 50
      ssnConfig).extracted_value = some "hello world"
    ∧ patternCandidates ssnOps "ssn" ssnPattern 50
        (pySlice "SSN: hello world" 5 55) (pySlice "SSN: hello world" 0 0) = []
    ∧ fallbackCandidates ssnOps "ssn"
        (pySlice "SSN: hello world" 5 55) (pySlice "SSN: hello world" 0 0)
      = [⟨"hello world", 3/4, 0, "after"⟩] := by decide

/-- Counterexample to claim C4: with a mandatory pattern
(`pattern_required: true`), a label that is found (3rd conjunct) with no
candidate value in either direction (4th conjunct) yields confidence 0.0,
not the claimed 0.3. -/
theorem absence_confidence_counterexample :
    (extractUsingLabel ssnOps 0 "SSN: hello world" "ssn" "SSN" ssnPattern 50
      ssnReqConfig).confidence ≠ 3/10
    ∧ (extractUsingLabel ssnOps 0 "SSN: hello world" "ssn" "SSN" ssnPattern 50
      ssnReqConfig).confidence = 0
    ∧ findLabelMatch ssnOps "ssn" (buildLabelPattern ssnOps "SSN")
        "SSN: hello world" = some ⟨0, 5⟩
    ∧ patternCandidates ssnOps "ssn" ssnPattern 50
        (pySlice "SSN: hello world" 5 55) (pySlice "SSN: hello world" 0 0) = [] := by
  decide

/-- A label whose pattern is not found anywhere produces the
label-not-found result. -/
theorem extractUsingLabel_labelNotFound (R : RegexOps) (refDate : Int)
    (text field_name label pattern : String) (md : Nat) (cfg : ExtractionConfig)
    (h : findLabelMatch R field_name (buildLabelPattern R label) text = none) :
    extractUsingLabel R refDate text field_name label pattern md cfg
      = labelNotFoundResult field_name label cfg.section_name := by
  simp only [extractUsingLabel, h]

/-- The label loop falls through when no label produces a truthy value. -/
theorem tryLabels_eq_none (f : String → FieldExtractionResult)
    (labels : List String)
    (h : ∀ l ∈ labels, pyTruthyOpt (f l).extracted_value = false) :
    tryLabels f labels = none := by
  induction labels with
  | nil => rfl
  | cons l ls ih =>
    simp only [tryLabels, h l (List.mem_cons_self l ls), Bool.false_eq_true, if_false]
    exact ih (fun x hx => h x (List.mem_cons_of_mem l hx))

/-- Claim C4 (amended): on the generic label-proximity path (field not
insurance-prefixed, not resolved by the PBS extractor): (a) when none of the
configured labels is found, `extract_field` returns value None, confidence
exactly 0.0 and an error listing every label tried; (b) when a label is found
but no candidate value is extracted in either direction, the per-label
routine `_extract_using_label` returns confidence exactly 0.3 — unless the
field mandates a non-empty pattern (`pattern_required`), in which case it
returns 0.0 (and `extract_field` itself discards any no-value result). -/
theorem absence_confidence_amended (R : RegexOps) (refDate : Int)
    (text field_name : String) (cfg : ExtractionConfig)
    (hIns : pyStartsWith field_name "insurance_" = false)
    (hPbs : ¬ (field_name = "practice_location_name"
      ∧ pyTruthyOpt (R.pbsExtract (sectionSearchText R cfg text)
          cfg.pattern_required).1 = true
      ∧ (R.pbsExtract (sectionSearchText R cfg text) cfg.pattern_required).2 ≥ 4/5)) :
    (cfg.labels ≠ [] →
      (∀ label ∈ cfg.labels,
        findLabelMatch R field_name (buildLabelPattern R label)
          (sectionSearchText R cfg text) = none) →
      extract_field R refDate text field_name ⟨some cfg⟩
        = { field_name := field_name, extracted_value := none, confidence := 0,
            extraction_method := "label_proximity",
            errors := ["Could not find any of the labels: " ++ pyJoin ", " cfg.labels],
            notes := some ("Tried labels: " ++ pyJoin ", " cfg.labels) })
    ∧ (∀ label lm,
        findLabelMatch R field_name (buildLabelPattern R label)
          (sectionSearchText R cfg text) = some lm →
        patternCandidates R field_name cfg.pattern cfg.max_distance
            (pySlice (sectionSearchText R cfg text) lm.e (lm.e + cfg.max_distance))
            (pySlice (sectionSearchText R cfg text) (lm.s - cfg.max_distance) lm.s)
          = [] →
        fallbackCandidates R field_name
            (pySlice (sectionSearchText R cfg text) lm.e (lm.e + cfg.max_distance))
            (pySlice (sectionSearchText R cfg text) (lm.s - cfg.max_distance) lm.s)
          = [] →
        (¬ (cfg.pattern_required = true ∧ cfg.pattern ≠ "") →
          (extractUsingLabel R refDate (sectionSearchText R cfg text) field_name
              label cfg.pattern cfg.max_distance cfg).confidence = 3/10
          ∧ (extractUsingLabel R refDate (sectionSearchText R cfg text) field_name
              label cfg.pattern cfg.max_distance cfg).extracted_value = none)
        ∧ ((cfg.pattern_required = true ∧ cfg.pattern ≠ "") →
          (extractUsingLabel R refDate (sectionSearchText R cfg text) field_name
              label cfg.pattern cfg.max_distance cfg).confidence = 0
          ∧ (extractUsingLabel R refDate (sectionSearchText R cfg text) field_name
              label cfg.pattern cfg.max_distance cfg).extracted_value = none)) := by
  constructor
  · intro hlab hnone
    have hTL : tryLabels (fun label => extractUsingLabel R refDate
        (sectionSearchText R cfg text) field_name label cfg.pattern
        cfg.max_distance cfg) cfg.labels = none := by
      apply tryLabels_eq_none
      intro l hl
      rw [extractUsingLabel_labelNotFound R refDate _ field_name l cfg.pattern
        cfg.max_distance cfg (hnone l hl)]
      rfl
    simp only [extract_field, hIns, Bool.false_eq_true, if_false, Option.getD_some]
    rw [if_neg hPbs, if_neg (by simp : ¬ (some cfg = none)), if_neg hlab, hTL]
  · intro label lm hfound hpc hfb
    constructor
    · intro hnotreq
      have hres : extractUsingLabel R refDate (sectionSearchText R cfg text)
          field_name label cfg.pattern cfg.max_distance cfg
          = { field_name := field_name, extracted_value := none, confidence := 3/10,
              extraction_method := "bidirectional_search"
              raw_text_context := some
                (if pySlice (sectionSearchText R cfg text) lm.e (lm.e + cfg.max_distance)
                    ≠ "" then
                  pySlice (pySlice (sectionSearchText R cfg text) lm.e
                    (lm.e + cfg.max_distance)) 0 50
                else
                  pySlice (pySlice (sectionSearchText R cfg text)
                      (lm.s - cfg.max_distance) lm.s)
                    ((pySlice (sectionSearchText R cfg text) (lm.s - cfg.max_distance)
                      lm.s).data.length - 50)
                    ((pySlice (sectionSearchText R cfg text) (lm.s - cfg.max_distance)
                      lm.s).data.length)),
              errors := ["Label " ++ sglq ++ label ++ sglq
                ++ " found but no value extracted in either direction"],
              warnings := if cfg.pattern ≠ "" then ["Expected pattern: " ++ cfg.pattern]
                else [] } := by
        simp only [extractUsingLabel, hfound, hpc, hfb, List.isEmpty_nil]
        rw [if_neg (by simpa using hnotreq), if_pos trivial]
        simp
      rw [hres]
      exact ⟨rfl, rfl⟩
    · intro hreq
      have hres : extractUsingLabel R refDate (sectionSearchText R cfg text)
          field_name label cfg.pattern cfg.max_distance cfg
          = { field_name := field_name, extracted_value := none, confidence := 0,
              extraction_method := "bidirectional_search",
              errors := ["Label " ++ sglq ++ label ++ sglq ++ " found but value doesn"
                ++ sglq ++ "t match required pattern: " ++ cfg.pattern],
              notes := some "Pattern required but not matched (pattern_required=true)" } := by
        simp only [extractUsingLabel, hfound, hpc, List.isEmpty_nil]
        rw [if_pos (by simpa using hreq)]
      rw [hres]
      exact ⟨rfl, rfl⟩

/-- Witness for C4 (amended), part (a): no label found anywhere. -/
theorem absence_confidence_witness :
    extract_field noopOps 0 "no labels here" "ssn" ⟨some ssnConfig⟩
      = { field_name := "ssn", extracted_value := none, confidence := 0,
          extraction_method := "label_proximity",
          errors := ["Could not find any of the labels: SSN"],
          notes := some "Tried labels: SSN" } := by
  have h := (absence_confidence_amended noopOps 0 "no labels here" "ssn" ssnConfig
    (by decide) (by decide)).1 (by decide) (by decide)
  exact h.trans (by decide)

/-! ### C6 — license expiration date selection -/

/-- Concrete license-date document text. -/
def licText : String := "License Expiration Date: 01/01/2020"

/-- The license date value pattern. -/
def licPattern : String := "\\d\x7b1,2\x7d/\\d\x7b1,2\x7d/\\d\x7b4\x7d"

/-- Oracle for `licText`: the label matches at `(0,25)`; the date pattern
matches `01/01/2020` in the after-region; `strptime` parses it with
`%m/%d/%Y` to proleptic ordinal 737425 (2020-01-01). -/
def licOps : RegexOps :=
  { noopOps with
    searchI := fun pat text =>
      if pat = "License Expiration Date\\s*:?\\s*" ∧ text = licText then some ⟨0, 25⟩
      else none
    finditer := fun pat region =>
      if pat = licPattern ∧ region = "01/01/2020" then [⟨0, 10⟩] else []
    parseDate := fun v fmt =>
      if v = "01/01/2020" ∧ fmt = "%m/%d/%Y" then some 737425 else none }

/-- License-expiration field configuration. -/
def licConfig : ExtractionConfig :=
  { labels := ["License Expiration Date"], pattern := licPattern }

/-- Counterexample to claim C6: reference date 2025-01-01 (ordinal 739252),
sole candidate `01/01/2020` entering at base confidence 0.90; the returned
result keeps the value with the days-expired warning, but its confidence is
0.70 — *lowered* by 0.20 (`max(0.3, conf - 0.20)`), not boosted. -/
theorem expired_date_confidence_counterexample :
    patternCandidates licOps "professional_license_expiration_date" licPattern 50
        (pySlice licText 25 75) (pySlice licText 0 0)
      = [⟨"01/01/2020", 9/10, 0, "after"⟩]
    ∧ (extractUsingLabel licOps 739252 licText
        "professional_license_expiration_date" "License Expiration Date" licPattern
        50 licConfig).extracted_value = some "01/01/2020"
    ∧ (extractUsingLabel licOps 739252 licText
        "professional_license_expiration_date" "License Expiration Date" licPattern
        50 licConfig).confidence = 7/10
    ∧ ¬ ((9:ℚ)/10 ≤ 7/10)
    ∧ (extractUsingLabel licOps 739252 licText
        "professional_license_expiration_date" "License Expiration Date" licPattern
        50 licConfig).warnings
      = ["⚠️ LICENSE EXPIRED: This license expired 1827 days ago on 01/01/2020. Current license required."] := by
  decide

/-- `pySortKey` of a non-empty list is non-empty. -/
theorem pySortKey_eq_nil_iff {α : Type} {key : α → ℚ × ℚ} {l : List α} :
    pySortKey key l = [] ↔ l = [] := by
  constructor
  · intro h
    cases l with
    | nil => rfl
    | cons x xs =>
      have hx : x ∈ pySortKey key (x :: xs) :=
        mem_pySortKey.mpr (List.mem_cons_self x xs)
      rw [h] at hx
      exact absurd hx (List.not_mem_nil x)
  · rintro rfl
    rfl

/-- The license sort key orders by date descending: key-`≤` means the later
date comes first. -/
theorem licenseDateKey_le {p q : Candidate × Int}
    (h : lexLe (licenseDateKey p) (licenseDateKey q)) : q.2 ≤ p.2 := by
  have h1 : -((p.2 : Int) : ℚ) ≤ -((q.2 : Int) : ℚ) := by
    rcases h with h | ⟨h, _⟩
    · exact le_of_lt h
    · exact le_of_eq h
  have h2 : ((q.2 : Int) : ℚ) ≤ ((p.2 : Int) : ℚ) := by linarith
  exact_mod_cast h2

/-- Claim C6 (amended): for the license-expiration field, when no parseable
candidate date is in the future and at least one candidate parses, the
selected result is the most recent (maximal-ordinal) past date — kept as a
value, with a warning stating how many days ago it expired, but with
confidence *lowered* to `max(0.3, conf - 0.20)` (not boosted); when parseable
future dates exist, they are preferred, sorted furthest-future first, each
with confidence boosted to `min(1.0, conf + 0.10)`. -/
theorem license_expired_fallback_amended (R : RegexOps) (refDate : Int)
    (cfg : ExtractionConfig) (cands : List Candidate) (hne : cands ≠ []) :
    (futureLicenseCandidates R (cfg.date_formats.getD defaultDateFormats) refDate
        cands = [] →
     pastLicenseCandidates R (cfg.date_formats.getD defaultDateFormats) cands ≠ [] →
      ∃ best ∈ pastLicenseCandidates R (cfg.date_formats.getD defaultDateFormats)
          cands,
        licenseStep R refDate "professional_license_expiration_date" cfg cands
          = .error
            { field_name := "professional_license_expiration_date"
              extracted_value := some best.1.value
              confidence := best.1.conf
              extraction_method := "bidirectional_search"
              errors := []
              warnings := ["⚠️ LICENSE EXPIRED: This license expired "
                ++ toString (refDate - best.2) ++ " days ago on " ++ best.1.value
                ++ ". Current license required."]
              notes := some ("Extracted expired license date. Found "
                ++ toString (pastLicenseCandidates R
                    (cfg.date_formats.getD defaultDateFormats) cands).length
                ++ " past date(s), selected most recent.") }
        ∧ (∀ p ∈ pastLicenseCandidates R (cfg.date_formats.getD defaultDateFormats)
            cands, p.2 ≤ best.2)
        ∧ (∃ c ∈ cands, tryParseDate R c.value
              (cfg.date_formats.getD defaultDateFormats) = some best.2
            ∧ best.1.value = c.value ∧ best.1.conf = max (3/10) (c.conf - 2/10)))
    ∧ (futureLicenseCandidates R (cfg.date_formats.getD defaultDateFormats) refDate
        cands ≠ [] →
      licenseStep R refDate "professional_license_expiration_date" cfg cands
        = .ok ((pySortKey licenseDateKey (futureLicenseCandidates R
            (cfg.date_formats.getD defaultDateFormats) refDate cands)).map Prod.fst)
      ∧ (pySortKey licenseDateKey (futureLicenseCandidates R
          (cfg.date_formats.getD defaultDateFormats) refDate cands)).Pairwise
          (fun p q => q.2 ≤ p.2)
      ∧ (∀ p ∈ futureLicenseCandidates R (cfg.date_formats.getD defaultDateFormats)
          refDate cands,
          refDate < p.2
          ∧ ∃ c ∈ cands, tryParseDate R c.value
                (cfg.date_formats.getD defaultDateFormats) = some p.2
              ∧ p.1.value = c.value ∧ p.1.conf = min 1 (c.conf + 1/10))) := by
  constructor
  · intro hfut hpast
    obtain ⟨b, rest, hsort⟩ : ∃ b rest, pySortKey licenseDateKey
        (pastLicenseCandidates R (cfg.date_formats.getD defaultDateFormats) cands)
        = b :: rest := by
      cases hs : pySortKey licenseDateKey (pastLicenseCandidates R
          (cfg.date_formats.getD defaultDateFormats) cands) with
      | nil => exact absurd (pySortKey_eq_nil_iff.mp hs) hpast
      | cons b rest => exact ⟨b, rest, rfl⟩
    obtain ⟨hbmem, hbmin⟩ := head_pySortKey_min hsort
    refine ⟨b, hbmem, ?_, ?_, ?_⟩
    · unfold licenseStep
      rw [if_pos ⟨rfl, hne⟩, if_neg (by simp [hfut])]
      simp only [hsort, List.head?_cons]
    · intro p hp
      exact licenseDateKey_le (hbmin p hp)
    · rcases List.mem_filterMap.mp hbmem with ⟨c, hc, hfc⟩
      cases htp : tryParseDate R c.value (cfg.date_formats.getD defaultDateFormats) with
      | none => rw [htp] at hfc; exact absurd hfc (by simp)
      | some d =>
        rw [htp] at hfc
        simp only [Option.some.injEq] at hfc
        refine ⟨c, hc, ?_, ?_, ?_⟩
        · rw [htp, ← hfc]
        · rw [← hfc]
        · rw [← hfc]
  · intro hfut
    refine ⟨?_, ?_, ?_⟩
    · unfold licenseStep
      rw [if_pos ⟨rfl, hne⟩, if_pos hfut]
    · exact (pairwise_pySortKey licenseDateKey _).imp (fun h => licenseDateKey_le h)
    · intro p hp
      rcases List.mem_filterMap.mp hp with ⟨c, hc, hfc⟩
      cases htp : tryParseDate R c.value (cfg.date_formats.getD defaultDateFormats) with
      | none => rw [htp] at hfc; exact absurd hfc (by simp)
      | some d =>
        simp only [htp] at hfc
        by_cases hgt : d > refDate
        · rw [if_pos hgt] at hfc
          simp only [Option.some.injEq] at hfc
          refine ⟨by rw [← hfc]; exact hgt, c, hc, by rw [htp, ← hfc], by rw [← hfc],
            by rw [← hfc]⟩
        · rw [if_neg hgt] at hfc
          exact absurd hfc (by simp)

/-- Witness for C6 (amended): the expired-date scenario. -/
theorem license_expired_fallback_witness :
    licenseStep licOps 739252 "professional_license_expiration_date" licConfig
        [⟨"01/01/2020", 9/10, 0, "after"⟩]
      = .error
        { field_name := "professional_license_expiration_date"
          extracted_value := some "01/01/2020"
          confidence := 7/10
          extraction_method := "bidirectional_search"
          errors := []
          warnings := ["⚠️ LICENSE EXPIRED: This license expired 1827 days ago on 01/01/2020. Current license required."]
          notes := some "Extracted expired license date. Found 1 past date(s), selected most recent." } := by
  obtain ⟨best, hmem, heq, _, _⟩ :=
    (license_expired_fallback_amended licOps 739252 licConfig
      [⟨"01/01/2020", 9/10, 0, "after"⟩] (by decide)).1 (by decide) (by decide)
  have hb : best = (⟨"01/01/2020", 7/10, 0, "after"⟩, 737425) := by
    have hpast : pastLicenseCandidates licOps
        (licConfig.date_formats.getD defaultDateFormats)
        [⟨"01/01/2020", 9/10, 0, "after"⟩]
        = [(⟨"01/01/2020", 7/10, 0, "after"⟩, 737425)] := by decide
    rw [hpast] at hmem
    simpa using hmem
  rw [hb] at heq
  rw [heq]
  exact congrArg Except.error (by decide)

/-! ### C7 — medicaid_id NPI disambiguation filter -/

/-- Claim C7: for `medicaid_id`, every candidate whose surrounding context
window contains an NPI label indicator is discarded — even a top-scoring one
(the filter is applied to the whole candidate list) — and when every
candidate is discarded the result has value None, confidence 0.0 and the
specific all-NPI-labeled error, distinct from the generic label-not-found
error. -/
theorem medicaid_npi_filter (R : RegexOps) (refDate : Int)
    (text label pattern : String) (max_distance : Nat) (cfg : ExtractionConfig)
    (lm : Span) (cands : List Candidate)
    (hfound : findLabelMatch R "medicaid_id" (buildLabelPattern R label) text
      = some lm)
    (hpc : patternCandidates R "medicaid_id" pattern max_distance
        (pySlice text lm.e (lm.e + max_distance))
        (pySlice text (lm.s - max_distance) lm.s) = cands)
    (hne : cands ≠ []) :
    (cands.filter
        (fun c => !R.hasNpiIndicator (medicaidContext text lm.s lm.e c)) ≠ [] →
      medicaidStep R text "medicaid_id" lm.s lm.e cands
        = .ok (cands.filter
            (fun c => !R.hasNpiIndicator (medicaidContext text lm.s lm.e c)))
      ∧ ∀ c ∈ cands, R.hasNpiIndicator (medicaidContext text lm.s lm.e c) = true →
          c ∉ cands.filter
            (fun c => !R.hasNpiIndicator (medicaidContext text lm.s lm.e c)))
    ∧ ((∀ c ∈ cands, R.hasNpiIndicator (medicaidContext text lm.s lm.e c) = true) →
      extractUsingLabel R refDate text "medicaid_id" label pattern max_distance cfg
        = { field_name := "medicaid_id", extracted_value := none, confidence := 0,
            extraction_method := "bidirectional_search",
            errors := ["Found numeric values but all were labeled as NPI (not Medicaid ID)"],
            notes := some ("Rejected " ++ toString cands.length
              ++ " NPI-labeled number(s) to prevent false positive") }
      ∧ ["Found numeric values but all were labeled as NPI (not Medicaid ID)"]
          ≠ (labelNotFoundResult "medicaid_id" label cfg.section_name).errors) := by
  have hie : cands.isEmpty = false := by
    cases cands with
    | nil => exact absurd rfl hne
    | cons c cs => rfl
  constructor
  · intro hfne
    constructor
    · unfold medicaidStep
      rw [if_pos ⟨rfl, hne⟩, if_pos hfne]
    · intro c hc hnpi hmem
      have := (List.mem_filter.mp hmem).2
      rw [hnpi] at this
      exact absurd this (by decide)
  · intro hall
    have hfe : cands.filter
        (fun c => !R.hasNpiIndicator (medicaidContext text lm.s lm.e c)) = [] := by
      apply List.filter_eq_nil_iff.mpr
      intro c hc
      rw [hall c hc]
      decide
    have hstep : medicaidStep R text "medicaid_id" lm.s lm.e cands
        = .error
          { field_name := "medicaid_id", extracted_value := none,
            confidence := 0, extraction_method := "bidirectional_search",
            errors := ["Found numeric values but all were labeled as NPI (not Medicaid ID)"],
            notes := some ("Rejected " ++ toString cands.length
              ++ " NPI-labeled number(s) to prevent false positive") } := by
      unfold medicaidStep
      rw [if_pos ⟨rfl, hne⟩, if_neg (by simp [hfe])]
    constructor
    · simp only [extractUsingLabel, hfound, hpc, hie, Bool.false_eq_true, false_and,
        if_false, hstep]
    · intro h
      have h1 : "Found numeric values but all were labeled as NPI (not Medicaid ID)"
          = "Label " ++ sglq ++ label ++ sglq ++ " not found in document"
            ++ (match cfg.section_name with
                | some sn => " (searched in " ++ sn ++ " section)"
                | none => "") := by
        simpa [labelNotFoundResult] using h
      have h2 := congrArg List.head? (congrArg String.data h1)
      have hR : ("Label " ++ sglq ++ label ++ sglq ++ " not found in document"
          ++ (match cfg.section_name with
              | some sn => " (searched in " ++ sn ++ " section)"
              | none => "")).data.head? = some (Char.ofNat 76) := rfl
      rw [hR] at h2
      exact absurd h2 (by decide)

/-- The spec scenario text for the sibling-collision rejection. -/
def medText : String := "Individual NPI: 1234567890 Medicaid ID: 1234567890"

/-- Oracle for `medText`: the `Medicaid ID` label matches at `(27,40)`, the
digit pattern matches after (`(0,10)` in the after-region) and before
(`(16,26)` in the before-region); `hasNpiIndicator` stands for the six NPI
indicator regexes, here realized as containment of `"NPI:"`. -/
def medOps : RegexOps :=
  { noopOps with
    searchI := fun pat t =>
      if pat = "Medicaid ID\\s*:?\\s*" ∧ t = medText then some ⟨27, 40⟩ else none
    search := fun _ reg => if reg = "1234567890" then some ⟨0, 10⟩ else none
    finditer := fun _ reg =>
      if reg = "Individual NPI: 1234567890 " then [⟨16, 26⟩] else []
    hasNpiIndicator := fun ctx => strContains ctx "NPI:" }

/-- Medicaid field configuration for the witness. -/
def medConfig : ExtractionConfig :=
  { labels := ["Medicaid ID"], pattern := "\\d\x7b8,12\x7d" }

/-- Witness for C7: both candidates (after and before the label) sit in a
context containing `"NPI:"`, so both are rejected and the specific error is
returned. -/
theorem medicaid_npi_filter_witness :
    extractUsingLabel medOps 0 medText "medicaid_id" "Medicaid ID"
        "\\d\x7b8,12\x7d" 50 medConfig
      = { field_name := "medicaid_id", extracted_value := none, confidence := 0,
          extraction_method := "bidirectional_search",
          errors := ["Found numeric values but all were labeled as NPI (not Medicaid ID)"],
          notes := some "Rejected 2 NPI-labeled number(s) to prevent false positive" } := by
  have h := ((medicaid_npi_filter medOps 0 medText "Medicaid ID" "\\d\x7b8,12\x7d"
    50 medConfig ⟨27, 40⟩
    [⟨"1234567890", 9/10, 0, "after"⟩, ⟨"1234567890", 17/20 - 1/50 * (25/100), 1, "before"⟩]
    (by decide) (by decide) (by decide)).2 (by decide)).1
  exact h.trans (by decide)

/-! ### C10 — practice_location_name label pre-filter -/

/-- Case-insensitive containment (Python `x in s.lower()` with a lowercase
needle, or the two-test idiom the code uses). -/
def containsCI (hay needle : String) : Bool :=
  strContains (pyLower hay) (pyLower needle)

/-- `listContains` decides substring occurrence. -/
theorem listContains_iff {hay needle : List Char} :
    listContains hay needle = true ↔ needle <:+: hay := by
  induction hay with
  | nil =>
    simp only [listContains, List.isEmpty_iff, List.infix_nil]
  | cons c t ih =>
    simp only [listContains, Bool.or_eq_true, List.isPrefixOf_iff_prefix, ih,
      List.infix_cons_iff]

/-- Containment is preserved by lowercasing both strings. -/
theorem strContains_pyLower {hay needle : String}
    (h : strContains hay needle = true) :
    strContains (pyLower hay) (pyLower needle) = true := by
  rw [strContains, listContains_iff] at h ⊢
  exact h.map Char.toLower

/-- The `practice_location_name` skip test equals the claim's description:
`"Tax Information"` case-insensitively within the 200 characters before the
occurrence, or `"W-9"` (case-insensitively) or `"appears on"` within the
window running from the occurrence's start to 50 characters past its end. -/
theorem plnSkipMatch_eq_spec (text : String) (m : Span) :
    plnSkipMatch text m
      = (containsCI (pySlice text (m.s - 200) m.s) "Tax Information"
        || containsCI (pySlice text m.s (min text.data.length (m.e + 50))) "W-9"
        || containsCI (pySlice text m.s (min text.data.length (m.e + 50))) "appears on") := by
  have hTI : pyLower "Tax Information" = "tax information" := by decide
  have hW : pyLower "W-9" = "w-9" := by decide
  have hAO : pyLower "appears on" = "appears on" := by decide
  rw [Bool.eq_iff_iff]
  simp only [plnSkipMatch, containsCI, Bool.or_eq_true, hTI, hW, hAO]
  constructor
  · intro h
    rcases h with (((h | h) | h) | h) | h
    · have h2 := strContains_pyLower h
      rw [hTI] at h2
      exact Or.inl (Or.inl h2)
    · exact Or.inl (Or.inl h)
    · have h2 := strContains_pyLower h
      rw [hW] at h2
      exact Or.inl (Or.inr h2)
    · exact Or.inl (Or.inr h)
    · exact Or.inr h
  · intro h
    rcases h with (h | h) | h
    · exact Or.inl (Or.inl (Or.inl (Or.inr h)))
    · exact Or.inl (Or.inr h)
    · exact Or.inr h

set_option maxRecDepth 4000 in
/-- Claim C10: for `practice_location_name` the label occurrences are
pre-filtered: the selected match is the first occurrence that is neither
preceded within 200 characters by "Tax Information" (case-insensitively) nor
has "W-9" (case-insensitively) or "appears on" in the window from its start
to 50 characters past its end; when every occurrence is filtered out, the
per-label extraction reports the label as not found (value None), and a
no-value label result makes the label loop try the next configured label. -/
theorem pln_label_prefilter (R : RegexOps) (refDate : Int)
    (text label pattern : String) (md : Nat) (cfg : ExtractionConfig)
    (f : String → FieldExtractionResult) (rest : List String) :
    (findLabelMatch R "practice_location_name" (buildLabelPattern R label) text
      = ((R.finditerI (buildLabelPattern R label) text).filter
          (fun m => !(containsCI (pySlice text (m.s - 200) m.s) "Tax Information"
            || containsCI (pySlice text m.s (min text.data.length (m.e + 50))) "W-9"
            || containsCI (pySlice text m.s (min text.data.length (m.e + 50)))
                "appears on"))).head?)
    ∧ ((∀ m ∈ R.finditerI (buildLabelPattern R label) text,
          plnSkipMatch text m = true) →
        extractUsingLabel R refDate text "practice_location_name" label pattern md
            cfg
          = labelNotFoundResult "practice_location_name" label cfg.section_name
        ∧ (labelNotFoundResult "practice_location_name" label
            cfg.section_name).extracted_value = none)
    ∧ (pyTruthyOpt (f label).extracted_value = false →
        tryLabels f (label :: rest) = tryLabels f rest) := by
  refine ⟨?_, ?_, ?_⟩
  · have h0 : findLabelMatch R "practice_location_name" (buildLabelPattern R label)
        text = ((R.finditerI (buildLabelPattern R label) text).filter
          (fun m => !plnSkipMatch text m)).head? := by
      simp [findLabelMatch]
    rw [h0]
    congr 1
    apply List.filter_congr
    intro m _
    rw [plnSkipMatch_eq_spec]
  · intro hall
    have hfe : (R.finditerI (buildLabelPattern R label) text).filter
        (fun m => !plnSkipMatch text m) = [] := by
      apply List.filter_eq_nil_iff.mpr
      intro m hm
      rw [hall m hm]
      decide
    have hnone : findLabelMatch R "practice_location_name"
        (buildLabelPattern R label) text = none := by
      simp [findLabelMatch, hfe]
    exact ⟨extractUsingLabel_labelNotFound R refDate text "practice_location_name"
      label pattern md cfg hnone, rfl⟩
  · intro h
    simp only [tryLabels, h, Bool.false_eq_true, if_false]

/-- Concrete all-filtered text: the sole label occurrence sits right after
"Tax Information". -/
def plnText : String := "Tax Information Practice Name: Acme"

/-- Oracle for `plnText`: one occurrence of the practice-name label pattern,
at span `(16, 31)`. -/
def plnOps : RegexOps :=
  { noopOps with
    finditerI := fun pat t =>
      if pat = "Practice Name\\s*:?\\s*" ∧ t = plnText then [⟨16, 31⟩] else [] }

/-- Witness for C10: the only occurrence is Tax-filtered, so the label is
treated as not found. -/
theorem pln_label_prefilter_witness :
    extractUsingLabel plnOps 0 plnText "practice_location_name" "Practice Name"
        "" 50 {}
      = labelNotFoundResult "practice_location_name" "Practice Name" none :=
  ((pln_label_prefilter plnOps 0 plnText "Practice Name" "" 50 {}
    (fun _ => labelNotFoundResult "practice_location_name" "Practice Name" none)
    []).2.1 (by decide)).1

/-! ### C5 — insurance multi-policy selection -/

/-- Insurance text whose single policy block has no expiration-date string. -/
def insText : String :=
  "INSURANCE INFORMATION\nPolicy Number: ABC-123\nCarrier/Self Insured Name: Acme Insurance Co"

/-- The single policy block of `insText` (the section text from the policy
match to the section end). -/
def insBlockText : String :=
  "Policy Number: ABC-123\nCarrier/Self Insured Name: Acme Insurance Co"

/-- Oracle for `insText`: section header at `(0,21)`, one policy match at
section offset 1, per-block parsing yielding a policy number and carrier but
no expiration date. -/
def insOps : RegexOps :=
  { noopOps with
    searchInsuranceSection := fun t => if t = insText then some ⟨0, 21⟩ else none
    finditerPolicy := fun sec =>
      if sec = pySlice insText 21 insText.data.length then [⟨1, 15⟩] else []
    extractSinglePolicy := fun bt =>
      if bt = insBlockText then
        { insurance_policy_number := some "ABC-123"
          insurance_carrier_name := some "Acme Insurance Co" }
      else {} }

/-- Counterexample to claim C5: the document's only (hence first) policy
block has fields (`Policy Number: ABC-123`) but no expiration-date string; the
extractor returns the all-`None` dictionary, not the first block's fields. -/
theorem insurance_first_block_counterexample :
    extract_insurance_fields insOps insText = ({} : PolicyFields)
    ∧ insOps.extractSinglePolicy insBlockText
      = { insurance_policy_number := some "ABC-123"
          insurance_carrier_name := some "Acme Insurance Co" }
    ∧ policyBlocks (pySlice insText 21 insText.data.length)
        (insOps.finditerPolicy (pySlice insText 21 insText.data.length))
      = [insBlockText]
    ∧ ({} : PolicyFields).insurance_policy_number = none := by decide

/-- The insurance sort key orders by parsed expiration date, descending. -/
theorem insuranceDateKey_le {p q : PolicyFields × Option Int}
    (h : lexLe (insuranceDateKey p) (insuranceDateKey q)) :
    q.2.getD 0 ≤ p.2.getD 0 := by
  have h1 : -((p.2.getD 0 : Int) : ℚ) ≤ -((q.2.getD 0 : Int) : ℚ) := by
    rcases h with h | ⟨h, _⟩
    · exact le_of_lt h
    · exact le_of_eq h
  have h2 : ((q.2.getD 0 : Int) : ℚ) ≤ ((p.2.getD 0 : Int) : ℚ) := by linarith
  exact_mod_cast h2

/-- Claim C5 (amended): blocks whose per-block parse has no (truthy)
expiration-date string are dropped.  Among the surviving blocks: if at least
one has a parseable date, all fields of the result come from the single
block whose parsed date is maximal (furthest in the future) — one
`_extract_single_policy` call on one block's text, never mixing; if none
parses, the *first surviving* block's fields are returned; if no block
survives at all, every field is `None`. -/
theorem insurance_selection_amended (R : RegexOps) (text : String) (sm : Span)
    (sec : String) (policies : List (PolicyFields × Option Int))
    (hsec : R.searchInsuranceSection text = some sm)
    (hsec2 : insuranceSectionText R text sm.e = sec)
    (hpm : R.finditerPolicy sec ≠ [])
    (hpol : insurancePolicies R (policyBlocks sec (R.finditerPolicy sec))
      = policies) :
    (policies.filter (fun p => p.2.isSome) ≠ [] →
      ∃ sel ∈ policies.filter (fun p => p.2.isSome),
        extract_insurance_fields R text = sel.1
        ∧ (∀ q ∈ policies.filter (fun p => p.2.isSome),
            q.2.getD 0 ≤ sel.2.getD 0)
        ∧ ∃ bt ∈ policyBlocks sec (R.finditerPolicy sec),
            sel.1 = R.extractSinglePolicy bt
            ∧ pyTruthyOpt (R.extractSinglePolicy
                bt).insurance_current_expiration_date = true)
    ∧ (policies.filter (fun p => p.2.isSome) = [] →
        ∀ sel rest, policies = sel :: rest →
          extract_insurance_fields R text = sel.1)
    ∧ (policies = [] → extract_insurance_fields R text = {}) := by
  have hrun : extract_insurance_fields R text
      = (if policies = [] then {}
         else
          match (pySortKey insuranceDateKey
              (policies.filter (fun p => p.2.isSome))).head? with
          | some sel => sel.1
          | none =>
            match (policies.filter (fun p => !p.2.isSome)).head? with
            | some sel => sel.1
            | none => (policies.headD ({}, none)).1) := by
    unfold extract_insurance_fields
    rw [hsec]
    simp only [hsec2, hpol]
    rw [if_neg hpm]
  refine ⟨?_, ?_, ?_⟩
  · intro hw
    obtain ⟨b, rest, hsort⟩ : ∃ b rest, pySortKey insuranceDateKey
        (policies.filter (fun p => p.2.isSome)) = b :: rest := by
      cases hs : pySortKey insuranceDateKey
          (policies.filter (fun p => p.2.isSome)) with
      | nil => exact absurd (pySortKey_eq_nil_iff.mp hs) hw
      | cons b rest => exact ⟨b, rest, rfl⟩
    obtain ⟨hbmem, hbmin⟩ := head_pySortKey_min hsort
    have hpne : policies ≠ [] := by
      intro h
      rw [h] at hw
      exact hw rfl
    refine ⟨b, hbmem, ?_, ?_, ?_⟩
    · rw [hrun, if_neg hpne, hsort]
      rfl
    · intro q hq
      exact insuranceDateKey_le (hbmin q hq)
    · have hbp : b ∈ policies := (List.mem_filter.mp hbmem).1
      rw [← hpol] at hbp
      rcases List.mem_filterMap.mp hbp with ⟨bt, hbt, hfb⟩
      cases htr : pyTruthyOpt
          (R.extractSinglePolicy bt).insurance_current_expiration_date with
      | false =>
        simp only [htr, Bool.false_eq_true, if_false] at hfb
        exact absurd hfb (by simp)
      | true =>
        simp only [htr, if_true, Option.some.injEq] at hfb
        exact ⟨bt, hbt, by rw [← hfb], htr⟩
  · intro hwempty sel rest hps
    have hall : ∀ p ∈ policies, p.2.isSome = false := by
      intro p hp
      have := List.filter_eq_nil_iff.mp hwempty p hp
      simpa using this
    have hsortnil : pySortKey insuranceDateKey
        (policies.filter (fun p => p.2.isSome)) = [] := by
      rw [hwempty]
      rfl
    have hfilter : policies.filter (fun p => !p.2.isSome) = policies := by
      apply List.filter_eq_self.mpr
      intro p hp
      rw [hall p hp]
      rfl
    rw [hrun, if_neg (by rw [hps]; exact fun h => List.noConfusion h), hsortnil,
      hfilter, hps]
    rfl
  · intro hempty
    rw [hrun, if_pos hempty]

/-- The spec's two-policy scenario text. -/
def ins2Text : String :=
  "INSURANCE INFORMATION\nPolicy Number: A-1\nCurrent Expiration Date: 06/01/2025\nPolicy Number: B-2\nCurrent Expiration Date: 12/01/2026"

/-- First policy block of `ins2Text`. -/
def ins2BlockA : String :=
  "Policy Number: A-1\nCurrent Expiration Date: 06/01/2025\n"

/-- Second policy block of `ins2Text`. -/
def ins2BlockB : String :=
  "Policy Number: B-2\nCurrent Expiration Date: 12/01/2026"

/-- Fields parsed from the first block. -/
def insPolA : PolicyFields :=
  { insurance_policy_number := some "A-1"
    insurance_current_expiration_date := some "06/01/2025" }

/-- Fields parsed from the second block. -/
def insPolB : PolicyFields :=
  { insurance_policy_number := some "B-2"
    insurance_current_expiration_date := some "12/01/2026" }

/-- Oracle for `ins2Text`: two policy matches (section offsets 1 and 56);
`%m/%d/%Y` parses the two dates to ordinals 739403 (2025-06-01) and 739951
(2026-12-01). -/
def ins2Ops : RegexOps :=
  { noopOps with
    searchInsuranceSection := fun t => if t = ins2Text then some ⟨0, 21⟩ else none
    finditerPolicy := fun sec =>
      if sec = pySlice ins2Text 21 ins2Text.data.length then [⟨1, 16⟩, ⟨56, 71⟩]
      else []
    extractSinglePolicy := fun bt =>
      if bt = ins2BlockA then insPolA
      else if bt = ins2BlockB then insPolB
      else {}
    parseDate := fun v fmt =>
      if fmt = "%m/%d/%Y" then
        if v = "06/01/2025" then some 739403
        else if v = "12/01/2026" then some 739951
        else none
      else none }

set_option maxRecDepth 40000 in
/-- Witness for C5 (amended): with expirations 06/01/2025 and 12/01/2026 the
extractor returns all fields of the 12/01/2026 block exclusively. -/
theorem insurance_selection_witness :
    extract_insurance_fields ins2Ops ins2Text = insPolB := by
  obtain ⟨sel, hmem, heq, hmax, _⟩ :=
    (insurance_selection_amended ins2Ops ins2Text ⟨0, 21⟩
      (pySlice ins2Text 21 ins2Text.data.length)
      [(insPolA, some 739403), (insPolB, some 739951)]
      (by decide) (by decide) (by decide) (by decide)).1 (by decide)
  have hf : List.filter (fun p => p.2.isSome)
      [(insPolA, (some 739403 : Option Int)), (insPolB, some 739951)]
      = [(insPolA, some 739403), (insPolB, some 739951)] := by decide
  rw [hf] at hmem
  rcases List.mem_cons.mp hmem with rfl | hmem2
  · exfalso
    have hcontra := hmax (insPolB, some 739951) (by rw [hf]; decide)
    revert hcontra
    decide
  · rcases List.mem_cons.mp hmem2 with rfl | hmem3
    · exact heq
    · exact absurd hmem3 (List.not_mem_nil _)
